import Mathlib

/-!
Shallow embedding of the `api-rate-limiter` library (TypeScript sources under
`src/`), covering the three admission strategies, the `RateLimiter`
orchestrator and the `PerUserRateLimiter` keyed registry.

Times are modelled as integers (milliseconds, the unit of `Date.now()`);
token-bucket arithmetic, done on JS floats in the source, is modelled
exactly over `ℚ`.  Every method that reads `Date.now()` takes the current
time `now` as an explicit argument, and mutation is modelled by explicit
state passing: a method that mutates `this` returns the updated state.
-/

namespace RateLimiterLib

/-- `RateLimiterConfig` from `src/core/types.ts`.  The `strategy` field is a
string so that unknown algorithm names (possible at runtime despite the
TS union type) can be represented. -/
structure RateLimiterConfig where
  maxRequests : ℤ
  windowMs : ℤ
  strategy : String
  skipSuccessfulRequests : Bool
  skipFailedRequests : Bool
deriving Repr, DecidableEq

/-- `RateLimiterState` from `src/core/types.ts`: the snapshot returned by
`getState()`. -/
structure RateLimiterState where
  remaining : ℤ
  resetTime : ℤ
  isLimited : Bool
  retryAfter : ℤ
  totalRequests : ℤ
deriving Repr, DecidableEq

/-! ## Sliding window strategy (`src/strategies/sliding-window.ts`) -/

/-- Mutable state of `SlidingWindowStrategy`: the array
`requestTimestamps`. -/
structure SlidingWindowState where
  requestTimestamps : List ℤ
deriving Repr, DecidableEq

namespace SlidingWindow

/-- `cleanupOldRequests`: keep timestamps with `now - timestamp < windowMs`. -/
def cleanupOldRequests (cfg : RateLimiterConfig) (now : ℤ)
    (s : SlidingWindowState) : SlidingWindowState :=
  ⟨s.requestTimestamps.filter (fun t => now - t < cfg.windowMs)⟩

/-- `canMakeRequest`: cleanup, then compare the live count with
`maxRequests`.  Returns the decision together with the mutated state. -/
def canMakeRequest (cfg : RateLimiterConfig) (now : ℤ)
    (s : SlidingWindowState) : Bool × SlidingWindowState :=
  let s' := cleanupOldRequests cfg now s
  ((s'.requestTimestamps.length : ℤ) < cfg.maxRequests, s')

/-- `consumeRequest`: push `Date.now()`. -/
def consumeRequest (now : ℤ) (s : SlidingWindowState) : SlidingWindowState :=
  ⟨s.requestTimestamps ++ [now]⟩

/-- `getWaitTime`: `0` when the array is empty, else
`max 0 (windowMs - (now - oldest))`.  (No cleanup here, as in the source.) -/
def getWaitTime (cfg : RateLimiterConfig) (now : ℤ)
    (s : SlidingWindowState) : ℤ :=
  match s.requestTimestamps with
  | [] => 0
  | oldest :: _ => max 0 (cfg.windowMs - (now - oldest))

/-- `getNextResetTime`: `oldest + windowMs`, or `now + windowMs` if empty. -/
def getNextResetTime (cfg : RateLimiterConfig) (now : ℤ)
    (s : SlidingWindowState) : ℤ :=
  match s.requestTimestamps with
  | [] => now + cfg.windowMs
  | oldest :: _ => oldest + cfg.windowMs

/-- `getState`: cleanup, then build the snapshot.  Returns the snapshot and
the mutated state. -/
def getState (cfg : RateLimiterConfig) (now : ℤ)
    (s : SlidingWindowState) : RateLimiterState × SlidingWindowState :=
  let s' := cleanupOldRequests cfg now s
  let remaining := max 0 (cfg.maxRequests - (s'.requestTimestamps.length : ℤ))
  let isLimited := remaining = 0
  (⟨remaining, getNextResetTime cfg now s', decide isLimited,
    if isLimited then getWaitTime cfg now s' else 0,
    (s'.requestTimestamps.length : ℤ)⟩, s')

/-- `reset`: drop all timestamps. -/
def reset : SlidingWindowState := ⟨[]⟩

end SlidingWindow

/-! ## Fixed window strategy (`src/strategies/fixed-window.ts`) -/

/-- Mutable state of `FixedWindowStrategy`.  The constructor sets
`requestCount = 0` and `windowStart = Date.now()`. -/
structure FixedWindowState where
  requestCount : ℤ
  windowStart : ℤ
deriving Repr, DecidableEq

namespace FixedWindow

/-- The fresh state built by the constructor at time `now`. -/
def init (now : ℤ) : FixedWindowState := ⟨0, now⟩

/-- `checkWindowReset`: if `now ≥ windowStart + windowMs`, zero the counter
and restart the window at `now`. -/
def checkWindowReset (cfg : RateLimiterConfig) (now : ℤ)
    (s : FixedWindowState) : FixedWindowState :=
  if s.windowStart + cfg.windowMs ≤ now then ⟨0, now⟩ else s

/-- `canMakeRequest`: reset check, then compare `requestCount` with
`maxRequests`. -/
def canMakeRequest (cfg : RateLimiterConfig) (now : ℤ)
    (s : FixedWindowState) : Bool × FixedWindowState :=
  let s' := checkWindowReset cfg now s
  (s'.requestCount < cfg.maxRequests, s')

/-- `consumeRequest`: reset check, then increment. -/
def consumeRequest (cfg : RateLimiterConfig) (now : ℤ)
    (s : FixedWindowState) : FixedWindowState :=
  let s' := checkWindowReset cfg now s
  ⟨s'.requestCount + 1, s'.windowStart⟩

/-- `getWaitTime`: `max 0 (windowEnd - now)`. -/
def getWaitTime (cfg : RateLimiterConfig) (now : ℤ)
    (s : FixedWindowState) : ℤ :=
  max 0 (s.windowStart + cfg.windowMs - now)

/-- `getState`: reset check, then build the snapshot. -/
def getState (cfg : RateLimiterConfig) (now : ℤ)
    (s : FixedWindowState) : RateLimiterState × FixedWindowState :=
  let s' := checkWindowReset cfg now s
  let remaining := max 0 (cfg.maxRequests - s'.requestCount)
  let isLimited := remaining = 0
  (⟨remaining, s'.windowStart + cfg.windowMs, decide isLimited,
    if isLimited then getWaitTime cfg now s' else 0,
    s'.requestCount⟩, s')

/-- `reset`: zero the counter and restart the window at `now`. -/
def reset (now : ℤ) : FixedWindowState := ⟨0, now⟩

end FixedWindow

/-! ## Token bucket strategy (`src/strategies/token-bucket.ts`) -/

/-- Mutable state of `TokenBucketStrategy`.  The source stores `tokens` as a
JS float; we model it exactly with `ℚ`. -/
structure TokenBucketState where
  tokens : ℚ
  lastRefill : ℤ
deriving Repr, DecidableEq

namespace TokenBucket

/-- The fresh state built by the constructor at time `now`:
a full bucket. -/
def init (cfg : RateLimiterConfig) (now : ℤ) : TokenBucketState :=
  ⟨(cfg.maxRequests : ℚ), now⟩

/-- `refillRate = maxRequests / (windowMs / 1000)` (tokens per second). -/
def refillRate (cfg : RateLimiterConfig) : ℚ :=
  (cfg.maxRequests : ℚ) / ((cfg.windowMs : ℚ) / 1000)

/-- `refillTokens`: add `(now - lastRefill) / 1000 * refillRate` tokens,
capped at `maxRequests`, and set `lastRefill = now`. -/
def refillTokens (cfg : RateLimiterConfig) (now : ℤ)
    (s : TokenBucketState) : TokenBucketState :=
  let timePassed : ℚ := ((now - s.lastRefill : ℤ) : ℚ) / 1000
  let tokensToAdd := timePassed * refillRate cfg
  ⟨min (cfg.maxRequests : ℚ) (s.tokens + tokensToAdd), now⟩

/-- `canMakeRequest`: refill, then check `tokens ≥ 1`. -/
def canMakeRequest (cfg : RateLimiterConfig) (now : ℤ)
    (s : TokenBucketState) : Bool × TokenBucketState :=
  let s' := refillTokens cfg now s
  (decide ((1 : ℚ) ≤ s'.tokens), s')

/-- `consumeRequest`: refill, then, if `tokens ≥ 1`, take one token
(floored at 0). -/
def consumeRequest (cfg : RateLimiterConfig) (now : ℤ)
    (s : TokenBucketState) : TokenBucketState :=
  let s' := refillTokens cfg now s
  if (1 : ℚ) ≤ s'.tokens then ⟨max 0 (s'.tokens - 1), s'.lastRefill⟩ else s'

/-- `getWaitTime`: refill; `0` when a token is available, else
`ceil ((1 - tokens) / refillRate * 1000)`.  Returns the value and the
mutated state. -/
def getWaitTime (cfg : RateLimiterConfig) (now : ℤ)
    (s : TokenBucketState) : ℤ × TokenBucketState :=
  let s' := refillTokens cfg now s
  (if (1 : ℚ) ≤ s'.tokens then 0
   else ⌈((1 : ℚ) - s'.tokens) / refillRate cfg * 1000⌉, s')

/-- `getNextRefillTime`: `now + windowMs` when full, else
`now + getWaitTime()`.  (The inner `getWaitTime` call refills again,
a no-op at the same `now`; we keep its state.) -/
def getNextRefillTime (cfg : RateLimiterConfig) (now : ℤ)
    (s : TokenBucketState) : ℤ × TokenBucketState :=
  if (cfg.maxRequests : ℚ) ≤ s.tokens then (now + cfg.windowMs, s)
  else
    let (w, s') := getWaitTime cfg now s
    (now + w, s')

/-- `getState`: refill, then build the snapshot (`remaining = floor tokens`,
`totalRequests = maxRequests - remaining`). -/
def getState (cfg : RateLimiterConfig) (now : ℤ)
    (s : TokenBucketState) : RateLimiterState × TokenBucketState :=
  let s' := refillTokens cfg now s
  let remaining : ℤ := ⌊s'.tokens⌋
  let isLimited := s'.tokens < 1
  let (rt, s'') := getNextRefillTime cfg now s'
  let (w, s''') := if isLimited then getWaitTime cfg now s'' else (0, s'')
  (⟨remaining, rt, decide isLimited, w, cfg.maxRequests - remaining⟩, s''')

/-- `reset`: refill to capacity and stamp `lastRefill = now`. -/
def reset (cfg : RateLimiterConfig) (now : ℤ) : TokenBucketState :=
  ⟨(cfg.maxRequests : ℚ), now⟩

end TokenBucket

/-! ## The orchestrator (`src/core/rate-limiter.ts`) -/

/-- The strategy instance owned by a `RateLimiter`: one of the three
concrete strategies, with its state. -/
inductive StratState where
  | sliding (s : SlidingWindowState)
  | fixed (s : FixedWindowState)
  | tokenBucket (s : TokenBucketState)
deriving Repr, DecidableEq

namespace RateLimiter

/-- `createStrategy`: dispatch on the `strategy` string; an unrecognised
name falls into the `default` case together with `'sliding-window'`.
The fixed-window and token-bucket constructors read `Date.now()`. -/
def createStrategy (cfg : RateLimiterConfig) (now : ℤ) : StratState :=
  match cfg.strategy with
  | "fixed-window" => .fixed (FixedWindow.init now)
  | "token-bucket" => .tokenBucket (TokenBucket.init cfg now)
  | _ => .sliding ⟨[]⟩

/-- `strategy.canMakeRequest()` dispatched over the three variants. -/
def canMakeRequest (cfg : RateLimiterConfig) (now : ℤ) :
    StratState → Bool × StratState
  | .sliding s =>
      let (b, s') := SlidingWindow.canMakeRequest cfg now s
      (b, .sliding s')
  | .fixed s =>
      let (b, s') := FixedWindow.canMakeRequest cfg now s
      (b, .fixed s')
  | .tokenBucket s =>
      let (b, s') := TokenBucket.canMakeRequest cfg now s
      (b, .tokenBucket s')

/-- `strategy.consumeRequest()` dispatched over the three variants. -/
def consumeStrategy (cfg : RateLimiterConfig) (now : ℤ) :
    StratState → StratState
  | .sliding s => .sliding (SlidingWindow.consumeRequest now s)
  | .fixed s => .fixed (FixedWindow.consumeRequest cfg now s)
  | .tokenBucket s => .tokenBucket (TokenBucket.consumeRequest cfg now s)

/-- `strategy.getState()` dispatched over the three variants. -/
def getState (cfg : RateLimiterConfig) (now : ℤ) :
    StratState → RateLimiterState × StratState
  | .sliding s =>
      let (st, s') := SlidingWindow.getState cfg now s
      (st, .sliding s')
  | .fixed s =>
      let (st, s') := FixedWindow.getState cfg now s
      (st, .fixed s')
  | .tokenBucket s =>
      let (st, s') := TokenBucket.getState cfg now s
      (st, .tokenBucket s')

/-- `strategy.getWaitTime()` dispatched over the three variants. -/
def getWaitTime (cfg : RateLimiterConfig) (now : ℤ) :
    StratState → ℤ × StratState
  | .sliding s => (SlidingWindow.getWaitTime cfg now s, .sliding s)
  | .fixed s => (FixedWindow.getWaitTime cfg now s, .fixed s)
  | .tokenBucket s =>
      let (w, s') := TokenBucket.getWaitTime cfg now s
      (w, .tokenBucket s')

/-- `RateLimiter.consumeRequest()`: consume on the strategy, then read the
snapshot (whose `remaining` feeds the `onRequest` callback).  Returns that
`remaining` and the mutated state. -/
def consumeRequest (cfg : RateLimiterConfig) (now : ℤ) (st : StratState) :
    ℤ × StratState :=
  let st' := consumeStrategy cfg now st
  let (snap, st'') := getState cfg now st'
  (snap.remaining, st'')

/-- `RateLimiter.refundRequest()`: the body of this private method in the
source is empty (a comment describes a refund that is never performed), so
it leaves the strategy state unchanged. -/
def refundRequest (st : StratState) : StratState := st

/-- Outcome of one `makeRequest` (guard) call: rejected with a
`RateLimitError` carrying `retryAfter`, or the wrapped operation ran
(succeeding or failing); `remaining` is the value handed to the
`onRequest` callback. -/
inductive GuardResult where
  | limited (retryAfter : ℤ)
  | completed (success : Bool) (remaining : ℤ)
deriving Repr, DecidableEq

/-- `RateLimiter.makeRequest(fn)` with the whole call happening at time
`now` and the wrapped operation's outcome given by `success`:
check admission (throwing `RateLimitError` with the wait time when denied),
consume, run the operation, then refund when the matching skip flag is set. -/
def makeRequest (cfg : RateLimiterConfig) (now : ℤ) (st : StratState)
    (success : Bool) : GuardResult × StratState :=
  let (ok, st₁) := canMakeRequest cfg now st
  if ok then
    let (remaining, st₂) := consumeRequest cfg now st₁
    if success then
      let st₃ := if cfg.skipSuccessfulRequests then refundRequest st₂ else st₂
      (.completed true remaining, st₃)
    else
      let st₃ := if cfg.skipFailedRequests then refundRequest st₂ else st₂
      (.completed false remaining, st₃)
  else
    let (w, st₂) := getWaitTime cfg now st₁
    (.limited w, st₂)

/-- `RateLimiter.reset()` dispatched over the three variants. -/
def reset (cfg : RateLimiterConfig) (now : ℤ) : StratState → StratState
  | .sliding _ => .sliding SlidingWindow.reset
  | .fixed _ => .fixed (FixedWindow.reset now)
  | .tokenBucket _ => .tokenBucket (TokenBucket.reset cfg now)

end RateLimiter

/-! ## Keyed registry (`src/core/per-user-rate-limiter.ts`) -/

/-- One per-user limiter entry of `PerUserRateLimiter`:
`{ limiter, lastUsed }`.  The limiter's own mutable state is its
strategy state. -/
structure UserEntry where
  strat : StratState
  lastUsed : ℤ
deriving Repr, DecidableEq

/-- Registry-level configuration (`PerUserRateLimiterConfig`). -/
structure PerUserConfig where
  base : RateLimiterConfig
  cleanupInterval : ℤ
  maxInactiveTime : ℤ
deriving Repr, DecidableEq

/-- Mutable state of `PerUserRateLimiter`: the `Map` of entries (modelled
as an association list without duplicate keys) and whether the cleanup
timer is running. -/
structure PerUserState where
  limiters : List (String × UserEntry)
  timerActive : Bool
deriving Repr, DecidableEq

namespace PerUserRateLimiter

/-- The state right after the constructor: empty map; the sweep timer is
started when `cleanupInterval > 0`. -/
def init (cfg : PerUserConfig) : PerUserState :=
  ⟨[], decide (0 < cfg.cleanupInterval)⟩

/-- Map lookup (`this.limiters.get`). -/
def lookup (key : String) (l : List (String × UserEntry)) : Option UserEntry :=
  (l.find? (fun p => p.1 = key)).map Prod.snd

/-- Update the entry at `key` in place (`Map.set` for an existing key). -/
def setEntry (key : String) (e : UserEntry) :
    List (String × UserEntry) → List (String × UserEntry)
  | [] => []
  | p :: rest =>
      if p.1 = key then (key, e) :: rest else p :: setEntry key e rest

/-- `getLimiter(userId)`: create the entry when absent (a fresh
`RateLimiter` over the shared config, built at `now`), then stamp
`lastUsed = now`.  Returns the entry's limiter state and the mutated
registry. -/
def getLimiter (cfg : PerUserConfig) (userId : String) (now : ℤ)
    (st : PerUserState) : StratState × PerUserState :=
  let l₀ :=
    if (lookup userId st.limiters).isSome then st.limiters
    else st.limiters ++ [(userId, ⟨RateLimiter.createStrategy cfg.base now, now⟩)]
  match lookup userId l₀ with
  | some e =>
      (e.strat, ⟨setEntry userId ⟨e.strat, now⟩ l₀, st.timerActive⟩)
  | none => (RateLimiter.createStrategy cfg.base now, st)

/-- Write back a limiter's mutated strategy state into its entry
(the TS `Map` holds the limiter by reference, so mutations through the
returned limiter are visible in the map). -/
def putStrat (key : String) (strat : StratState) (st : PerUserState) :
    PerUserState :=
  match lookup key st.limiters with
  | some e => ⟨setEntry key ⟨strat, e.lastUsed⟩ st.limiters, st.timerActive⟩
  | none => st

/-- `canMakeRequest(userId)`: fetch (or create) the limiter, then ask it. -/
def canMakeRequest (cfg : PerUserConfig) (userId : String) (now : ℤ)
    (st : PerUserState) : Bool × PerUserState :=
  let (strat, st₁) := getLimiter cfg userId now st
  let (b, strat') := RateLimiter.canMakeRequest cfg.base now strat
  (b, putStrat userId strat' st₁)

/-- `getState(userId)`: fetch (or create) the limiter, then snapshot it. -/
def getState (cfg : PerUserConfig) (userId : String) (now : ℤ)
    (st : PerUserState) : RateLimiterState × PerUserState :=
  let (strat, st₁) := getLimiter cfg userId now st
  let (snap, strat') := RateLimiter.getState cfg.base now strat
  (snap, putStrat userId strat' st₁)

/-- `makeRequest(userId, fn)`: fetch (or create) the limiter, then guard
the operation through it. -/
def makeRequest (cfg : PerUserConfig) (userId : String) (now : ℤ)
    (st : PerUserState) (success : Bool) :
    RateLimiter.GuardResult × PerUserState :=
  let (strat, st₁) := getLimiter cfg userId now st
  let (r, strat') := RateLimiter.makeRequest cfg.base now strat success
  (r, putStrat userId strat' st₁)

/-- `getActiveUserCount()`. -/
def getActiveUserCount (st : PerUserState) : ℕ := st.limiters.length

/-- The periodic `cleanup()`: drop entries idle longer than
`maxInactiveTime` (default 3600000 when the field is falsy — we model the
configured value directly). -/
def cleanup (cfg : PerUserConfig) (now : ℤ) (st : PerUserState) :
    PerUserState :=
  ⟨st.limiters.filter (fun p => ¬ (cfg.maxInactiveTime < now - p.2.lastUsed)),
   st.timerActive⟩

/-- `destroy()`: stop the sweep timer and clear the map. -/
def destroy (_st : PerUserState) : PerUserState := ⟨[], false⟩

end PerUserRateLimiter

/-! ## Execution traces

A trace processes a list of attempt times in order (times are produced by
`Date.now()`, hence monotone).  Each attempt runs the strategy's admission
sequence as the orchestrator does: `canMakeRequest`, and on success
`consumeRequest`.  The run returns the list of admitted times and the
final state. -/

namespace SlidingWindow

/-- Run a list of admission attempts against the sliding-window strategy;
returns the admitted times (in order). -/
def run (cfg : RateLimiterConfig) : List ℤ → SlidingWindowState → List ℤ
  | [], _ => []
  | t :: ts, s =>
      let (ok, s') := canMakeRequest cfg t s
      if ok then t :: run cfg ts (consumeRequest t s')
      else run cfg ts s'

/-- The final strategy state after a run. -/
def runState (cfg : RateLimiterConfig) :
    List ℤ → SlidingWindowState → SlidingWindowState
  | [], s => s
  | t :: ts, s =>
      let (ok, s') := canMakeRequest cfg t s
      if ok then runState cfg ts (consumeRequest t s')
      else runState cfg ts s'

end SlidingWindow

namespace FixedWindow

/-- Run a list of admission attempts against the fixed-window strategy;
returns the admitted times (in order). -/
def run (cfg : RateLimiterConfig) : List ℤ → FixedWindowState → List ℤ
  | [], _ => []
  | t :: ts, s =>
      let (ok, s') := canMakeRequest cfg t s
      if ok then t :: run cfg ts (consumeRequest cfg t s')
      else run cfg ts s'

/-- The final strategy state after a run. -/
def runState (cfg : RateLimiterConfig) :
    List ℤ → FixedWindowState → FixedWindowState
  | [], s => s
  | t :: ts, s =>
      let (ok, s') := canMakeRequest cfg t s
      if ok then runState cfg ts (consumeRequest cfg t s')
      else runState cfg ts s'

end FixedWindow

namespace TokenBucket

/-- Run a list of admission attempts against the token-bucket strategy;
returns the admitted times (in order). -/
def run (cfg : RateLimiterConfig) : List ℤ → TokenBucketState → List ℤ
  | [], _ => []
  | t :: ts, s =>
      let (ok, s') := canMakeRequest cfg t s
      if ok then t :: run cfg ts (consumeRequest cfg t s')
      else run cfg ts s'

/-- The final strategy state after a run. -/
def runState (cfg : RateLimiterConfig) :
    List ℤ → TokenBucketState → TokenBucketState
  | [], s => s
  | t :: ts, s =>
      let (ok, s') := canMakeRequest cfg t s
      if ok then runState cfg ts (consumeRequest cfg t s')
      else runState cfg ts s'

end TokenBucket

/-! ## Lemmas about the sliding-window strategy -/

namespace SlidingWindow

/-- Filtering for liveness at a later instant subsumes an earlier cleanup:
timestamps dropped at time `t` would also be dropped at any `t' ≥ t`. -/
lemma filter_live_mono (W t t' : ℤ) (h : t ≤ t') (l : List ℤ) :
    (l.filter (fun u => decide (t - u < W))).filter
        (fun u => decide (t' - u < W))
      = l.filter (fun u => decide (t' - u < W)) := by
  induction l with
  | nil => rfl
  | cons x xs ih =>
    by_cases h1 : t - x < W
    · by_cases h2 : t' - x < W
      · simp [List.filter_cons, h1, h2, ih]
      · simp [List.filter_cons, h1, h2, ih]
    · have h2 : ¬ (t' - x < W) := by omega
      simp [List.filter_cons, h1, h2, ih]

/-- A pointwise-stronger filter keeps at most as many elements. -/
lemma length_filter_le_of_imp (p q : ℤ → Bool)
    (h : ∀ u, p u = true → q u = true) (l : List ℤ) :
    (l.filter p).length ≤ (l.filter q).length := by
  induction l with
  | nil => exact Nat.le_refl 0
  | cons x xs ih =>
    by_cases hp : p x = true
    · have hq := h x hp
      simp only [List.filter_cons, if_pos hp, if_pos hq, List.length_cons]
      omega
    · simp only [List.filter_cons, if_neg hp]
      by_cases hq : q x = true
      · simp only [if_pos hq, List.length_cons]; omega
      · simp only [if_neg hq]; exact ih

/-- Invariant-carrying induction behind the sliding-window overrun bound.
`A` is the list of previously admitted times, all at or before `t₀`; the
strategy state agrees with `A` on every liveness filter taken at a time
`≥ t₀`; `A` satisfies the window bound.  Then the whole run does, too. -/
lemma run_bound_aux (cfg : RateLimiterConfig) (a : ℤ) :
    ∀ (ts : List ℤ) (t₀ : ℤ) (s : SlidingWindowState) (A : List ℤ),
      List.Chain (· ≤ ·) t₀ ts →
      (∀ u ∈ A, u ≤ t₀) →
      (∀ t, t₀ ≤ t →
        s.requestTimestamps.filter (fun u => decide (t - u < cfg.windowMs))
          = A.filter (fun u => decide (t - u < cfg.windowMs))) →
      ((A.filter (fun u => decide (a ≤ u) &&
          decide (u < a + cfg.windowMs))).length : ℤ) ≤ cfg.maxRequests →
      (((A ++ run cfg ts s).filter (fun u => decide (a ≤ u) &&
          decide (u < a + cfg.windowMs))).length : ℤ) ≤ cfg.maxRequests := by
  intro ts
  induction ts with
  | nil =>
    intro t₀ s A _ _ _ hA
    simpa [run] using hA
  | cons tc ts ih =>
    intro t₀ s A hch hle hinv hA
    rcases List.chain_cons.mp hch with ⟨ht₀c, hchtl⟩
    have hinvc := hinv tc ht₀c
    by_cases hok :
        ((s.requestTimestamps.filter
            (fun u => decide (tc - u < cfg.windowMs))).length : ℤ)
          < cfg.maxRequests
    · -- admitted at tc
      have hrw : run cfg (tc :: ts) s
          = tc :: run cfg ts
              ⟨s.requestTimestamps.filter
                (fun u => decide (tc - u < cfg.windowMs)) ++ [tc]⟩ := by
        simp only [run, canMakeRequest, cleanupOldRequests, consumeRequest,
          decide_eq_true hok, if_true]
      rw [hrw]
      have : A ++ tc :: run cfg ts
            ⟨s.requestTimestamps.filter
              (fun u => decide (tc - u < cfg.windowMs)) ++ [tc]⟩
          = (A ++ [tc]) ++ run cfg ts
            ⟨s.requestTimestamps.filter
              (fun u => decide (tc - u < cfg.windowMs)) ++ [tc]⟩ := by
        simp
      rw [this]
      apply ih tc _ (A ++ [tc]) hchtl
      · intro u hu
        rcases List.mem_append.mp hu with hu | hu
        · exact le_trans (hle u hu) ht₀c
        · simp only [List.mem_singleton] at hu

          exact le_of_eq hu
      · intro t ht
        show (s.requestTimestamps.filter
              (fun u => decide (tc - u < cfg.windowMs)) ++ [tc]).filter
                (fun u => decide (t - u < cfg.windowMs))
            = (A ++ [tc]).filter (fun u => decide (t - u < cfg.windowMs))
        rw [List.filter_append, List.filter_append, hinvc,
          filter_live_mono cfg.windowMs tc t ht]
      · -- the extended admitted list still satisfies the window bound
        rw [List.filter_append]
        by_cases hwin : (decide (a ≤ tc) && decide (tc < a + cfg.windowMs))
            = true
        · have h1 : ∀ u, (decide (a ≤ u) &&
              decide (u < a + cfg.windowMs)) = true →
              (decide (tc - u < cfg.windowMs)) = true := by
            intro u hu
            simp only [Bool.and_eq_true, decide_eq_true_eq] at hu hwin
            exact decide_eq_true (by omega)
          have h2 : (A.filter (fun u => decide (a ≤ u) &&
                decide (u < a + cfg.windowMs))).length
              ≤ (A.filter (fun u => decide (tc - u < cfg.windowMs))).length :=
            length_filter_le_of_imp _ _ h1 A
          have h3 : ((A.filter
                (fun u => decide (tc - u < cfg.windowMs))).length : ℤ)
              < cfg.maxRequests := by
            rw [← hinvc]; exact hok
          have h4 : ([tc].filter (fun u => decide (a ≤ u) &&
              decide (u < a + cfg.windowMs))) = [tc] := by
            simp only [List.filter_cons, if_pos hwin, List.filter_nil]
          rw [h4, List.length_append, List.length_singleton]
          push_cast
          omega
        · have h4 : ([tc].filter (fun u => decide (a ≤ u) &&
              decide (u < a + cfg.windowMs))) = [] := by
            simp only [List.filter_cons, if_neg hwin, List.filter_nil]
          rw [h4, List.append_nil]
          exact hA
    · -- denied at tc
      have hrw : run cfg (tc :: ts) s
          = run cfg ts
              ⟨s.requestTimestamps.filter
                (fun u => decide (tc - u < cfg.windowMs))⟩ := by
        simp [run, canMakeRequest, cleanupOldRequests, hok]
      rw [hrw]
      apply ih tc _ A hchtl
      · intro u hu; exact le_trans (hle u hu) ht₀c
      · intro t ht
        show (s.requestTimestamps.filter
              (fun u => decide (tc - u < cfg.windowMs))).filter
                (fun u => decide (t - u < cfg.windowMs))
            = A.filter (fun u => decide (t - u < cfg.windowMs))
        rw [filter_live_mono cfg.windowMs tc t ht]
        exact hinv t (le_trans ht₀c ht)
      · exact hA

/-- Top-level overrun bound: over any trace of attempts at non-decreasing
times, starting from the fresh state, at most `maxRequests` admissions
fall in any half-open interval `[a, a + windowMs)`. -/
lemma run_bound (cfg : RateLimiterConfig) (hC : 0 ≤ cfg.maxRequests)
    (ts : List ℤ) (hts : List.Sorted (· ≤ ·) ts) (a : ℤ) :
    (((run cfg ts ⟨[]⟩).filter (fun u => decide (a ≤ u) &&
        decide (u < a + cfg.windowMs))).length : ℤ) ≤ cfg.maxRequests := by
  cases ts with
  | nil => simpa [run] using hC
  | cons t ts' =>
    have hch : List.Chain (· ≤ ·) t (t :: ts') :=
      List.chain_cons.mpr ⟨le_refl t,
        (List.chain'_iff_pairwise.mpr hts : List.Chain' (· ≤ ·) (t :: ts'))⟩
    have := run_bound_aux cfg a (t :: ts') t ⟨[]⟩ [] hch
      (by intro u hu; cases hu)
      (by intro tt _; rfl)
      (by simpa using hC)
    simpa using this

/-- Admitting from a partially filled bucket of identical timestamps `0`:
as long as capacity remains, every attempt at time `0` is admitted. -/
lemma run_replicate_zero (cfg : RateLimiterConfig) (hW : 0 < cfg.windowMs)
    (rest : List ℤ) :
    ∀ (k m : ℕ), ((m : ℤ) + (k : ℤ)) ≤ cfg.maxRequests →
      run cfg (List.replicate k 0 ++ rest) ⟨List.replicate m 0⟩
        = List.replicate k 0
            ++ run cfg rest ⟨List.replicate (m + k) 0⟩ := by
  intro k
  induction k with
  | zero => intro m h; simp
  | succ k ih =>
    intro m h
    have hfilter : (List.replicate m (0 : ℤ)).filter
        (fun u => decide ((0 : ℤ) - u < cfg.windowMs))
        = List.replicate m 0 := by
      rw [List.filter_replicate]
      simp only [sub_zero]
      rw [if_pos (decide_eq_true (by omega))]
    have hlt : ((List.replicate m (0 : ℤ)).length : ℤ) < cfg.maxRequests := by
      rw [List.length_replicate]; push_cast at h ⊢; omega
    have hstep : run cfg ((0 : ℤ) :: (List.replicate k 0 ++ rest))
          ⟨List.replicate m 0⟩
        = 0 :: run cfg (List.replicate k 0 ++ rest)
            ⟨List.replicate (m + 1) 0⟩ := by
      simp only [run, canMakeRequest, cleanupOldRequests, consumeRequest,
        hfilter]
      rw [if_pos (decide_eq_true hlt)]
      congr 2
      rw [← List.replicate_succ']
    rw [List.replicate_succ, List.cons_append, hstep,
      ih (m + 1) (by push_cast at h ⊢; omega)]
    rw [show m + 1 + k = m + (k + 1) from by omega]
    simp [List.replicate_succ]

/-- After `maxRequests` admissions at `t = 0`, an extra attempt at
`windowMs − ε` (with `0 < ε < windowMs`) is denied. -/
lemma deny_before_window (cfg : RateLimiterConfig)
    (hC : 0 < cfg.maxRequests) (hW : 0 < cfg.windowMs)
    (ε : ℤ) (hε0 : 0 < ε) (hεW : ε < cfg.windowMs) :
    run cfg (List.replicate cfg.maxRequests.toNat 0 ++ [cfg.windowMs - ε])
        ⟨[]⟩
      = List.replicate cfg.maxRequests.toNat 0 := by
  have hcast : ((cfg.maxRequests.toNat : ℤ)) = cfg.maxRequests :=
    Int.toNat_of_nonneg (le_of_lt hC)
  rw [show (⟨[]⟩ : SlidingWindowState) = ⟨List.replicate 0 0⟩ from rfl,
    run_replicate_zero cfg hW [cfg.windowMs - ε] cfg.maxRequests.toNat 0
      (by omega)]
  have hkeep : cfg.windowMs - ε - 0 < cfg.windowMs := by omega
  have hfilter : (List.replicate cfg.maxRequests.toNat (0 : ℤ)).filter
      (fun u => decide (cfg.windowMs - ε - u < cfg.windowMs))
      = List.replicate cfg.maxRequests.toNat 0 := by
    simp only [List.filter_replicate]
    rw [if_pos (decide_eq_true hkeep)]
  have hnlt : ¬ ((cfg.maxRequests.toNat : ℤ) < cfg.maxRequests) := by omega
  simp [run, canMakeRequest, cleanupOldRequests, hfilter, hnlt]

/-- After `maxRequests` admissions at `t = 0`, the same extra attempt at
`windowMs + ε` (with `0 < ε`) is admitted: the old timestamps have
expired. -/
lemma admit_after_window (cfg : RateLimiterConfig)
    (hC : 0 < cfg.maxRequests) (hW : 0 < cfg.windowMs)
    (ε : ℤ) (hε0 : 0 < ε) :
    run cfg (List.replicate cfg.maxRequests.toNat 0 ++ [cfg.windowMs + ε])
        ⟨[]⟩
      = List.replicate cfg.maxRequests.toNat 0 ++ [cfg.windowMs + ε] := by
  have hcast : ((cfg.maxRequests.toNat : ℤ)) = cfg.maxRequests :=
    Int.toNat_of_nonneg (le_of_lt hC)
  rw [show (⟨[]⟩ : SlidingWindowState) = ⟨List.replicate 0 0⟩ from rfl,
    run_replicate_zero cfg hW [cfg.windowMs + ε] cfg.maxRequests.toNat 0
      (by omega)]
  have hdrop : ¬ (cfg.windowMs + ε - 0 < cfg.windowMs) := by omega
  have hfilter : (List.replicate cfg.maxRequests.toNat (0 : ℤ)).filter
      (fun u => decide (cfg.windowMs + ε - u < cfg.windowMs))
      = [] := by
    simp only [List.filter_replicate]
    rw [if_neg (by simpa using hdrop)]
  simp [run, canMakeRequest, cleanupOldRequests, hfilter, hC]

end SlidingWindow

/-! ## Lemmas about the fixed-window strategy -/

namespace FixedWindow

/-- While inside the current window with spare capacity, every attempt at
time `t` is admitted and just increments the counter. -/
lemma run_replicate_in_window (cfg : RateLimiterConfig) :
    ∀ (k : ℕ) (m : ℤ) (t ws : ℤ) (rest : List ℤ),
      ws ≤ t → t < ws + cfg.windowMs → m + (k : ℤ) ≤ cfg.maxRequests →
      run cfg (List.replicate k t ++ rest) ⟨m, ws⟩
          = List.replicate k t ++ run cfg rest ⟨m + (k : ℤ), ws⟩
        ∧ runState cfg (List.replicate k t ++ rest) ⟨m, ws⟩
          = runState cfg rest ⟨m + (k : ℤ), ws⟩ := by
  intro k
  induction k with
  | zero =>
    intro m t ws rest _ _ _
    constructor <;> simp
  | succ k ih =>
    intro m t ws rest h1 h2 h3
    have hnores : ¬ (ws + cfg.windowMs ≤ t) := by omega
    have hok : m < cfg.maxRequests := by push_cast at h3; omega
    have hcan : canMakeRequest cfg t ⟨m, ws⟩ = (true, ⟨m, ws⟩) := by
      simp [canMakeRequest, checkWindowReset, hnores, hok]
    have hcons : consumeRequest cfg t ⟨m, ws⟩ = ⟨m + 1, ws⟩ := by
      simp [consumeRequest, checkWindowReset, hnores]
    have ihk := ih (m + 1) t ws rest h1 h2 (by push_cast at h3 ⊢; omega)
    have hidx : m + 1 + (k : ℤ) = m + ((k : ℕ) + 1 : ℕ) := by push_cast; omega
    constructor
    · rw [List.replicate_succ, List.cons_append]
      show run cfg (t :: (List.replicate k t ++ rest)) ⟨m, ws⟩ = _
      rw [run, hcan]
      simp only [if_true]
      rw [hcons, ihk.1, hidx]
      simp [List.replicate_succ]
    · rw [List.replicate_succ, List.cons_append]
      show runState cfg (t :: (List.replicate k t ++ rest)) ⟨m, ws⟩ = _
      rw [runState, hcan]
      simp only [if_true]
      rw [hcons, ihk.2, hidx]

/-- The documented fixed-window burst: `maxRequests` admissions late in one
window followed by `maxRequests` more right after the boundary all
succeed. -/
lemma run_burst (cfg : RateLimiterConfig) (hC : 0 < cfg.maxRequests)
    (hW : 0 < cfg.windowMs) (t₀ t₁ t₂ : ℤ)
    (h₀₁ : t₀ ≤ t₁) (h₁ : t₁ < t₀ + cfg.windowMs) (h₂ : t₀ + cfg.windowMs ≤ t₂) :
    run cfg (List.replicate cfg.maxRequests.toNat t₁
        ++ List.replicate cfg.maxRequests.toNat t₂) (init t₀)
      = List.replicate cfg.maxRequests.toNat t₁
        ++ List.replicate cfg.maxRequests.toNat t₂
      ∧ runState cfg (List.replicate cfg.maxRequests.toNat t₁
          ++ List.replicate cfg.maxRequests.toNat t₂) (init t₀)
        = ⟨cfg.maxRequests, t₂⟩ := by
  have hcast : ((cfg.maxRequests.toNat : ℤ)) = cfg.maxRequests :=
    Int.toNat_of_nonneg (le_of_lt hC)
  have hfirst := run_replicate_in_window cfg cfg.maxRequests.toNat 0 t₁ t₀
    (List.replicate cfg.maxRequests.toNat t₂) h₀₁ h₁ (by omega)
  -- after the first burst, the counter is full and the window unchanged;
  -- the first attempt at t₂ rolls the window over
  have hcan₂ : canMakeRequest cfg t₂ ⟨(0 : ℤ) + (cfg.maxRequests.toNat : ℤ), t₀⟩
      = (true, ⟨0, t₂⟩) := by
    simp [canMakeRequest, checkWindowReset, h₂, hC]
  have hsecond : ∀ rest₂ : List ℤ, rest₂ = [] →
      run cfg (List.replicate cfg.maxRequests.toNat t₂)
          ⟨(0 : ℤ) + (cfg.maxRequests.toNat : ℤ), t₀⟩
        = List.replicate cfg.maxRequests.toNat t₂
      ∧ runState cfg (List.replicate cfg.maxRequests.toNat t₂)
          ⟨(0 : ℤ) + (cfg.maxRequests.toNat : ℤ), t₀⟩
        = ⟨cfg.maxRequests, t₂⟩ := by
    intro rest₂ hrest₂
    cases hCk : cfg.maxRequests.toNat with
    | zero => omega
    | succ k =>
      rw [hCk] at hcan₂
      have hnores : ¬ (t₂ + cfg.windowMs ≤ t₂) := by omega
      have hcons : consumeRequest cfg t₂ ⟨(0 : ℤ), t₂⟩ = ⟨1, t₂⟩ := by
        simp [consumeRequest, checkWindowReset, hnores]
      have hrun := run_replicate_in_window cfg k 1 t₂ t₂
        ([] : List ℤ) (le_refl t₂) (by omega) (by omega)
      constructor
      · rw [List.replicate_succ]
        show run cfg (t₂ :: List.replicate k t₂) _ = _
        rw [run, hcan₂]
        simp only [if_true]
        rw [hcons, show List.replicate k t₂
            = List.replicate k t₂ ++ ([] : List ℤ) from (List.append_nil _).symm,
          hrun.1]
        simp [run, List.replicate_succ]
      · rw [List.replicate_succ]
        show runState cfg (t₂ :: List.replicate k t₂) _ = _
        rw [runState, hcan₂]
        simp only [if_true]
        rw [hcons, show List.replicate k t₂
            = List.replicate k t₂ ++ ([] : List ℤ) from (List.append_nil _).symm,
          hrun.2]
        simp only [runState]
        rw [show (1 : ℤ) + (k : ℤ) = cfg.maxRequests from by omega]
  constructor
  · rw [show init t₀ = (⟨0, t₀⟩ : FixedWindowState) from rfl, hfirst.1,
      (hsecond [] rfl).1]
  · rw [show init t₀ = (⟨0, t₀⟩ : FixedWindowState) from rfl, hfirst.2,
      (hsecond [] rfl).2]

end FixedWindow

/-! ## Lemmas about the token-bucket strategy -/

namespace TokenBucket

/-- The refill computed by the source — `(Δ/1000) · (C / (W/1000))` —
equals the specified `Δ · (C / W)` exactly over `ℚ`. -/
lemma refill_formula (cfg : RateLimiterConfig) (hW : cfg.windowMs ≠ 0)
    (now : ℤ) (s : TokenBucketState) :
    refillTokens cfg now s
      = ⟨min (cfg.maxRequests : ℚ)
          (s.tokens + ((now - s.lastRefill : ℤ) : ℚ)
            * ((cfg.maxRequests : ℚ) / (cfg.windowMs : ℚ))), now⟩ := by
  have hWQ : ((cfg.windowMs : ℤ) : ℚ) ≠ 0 := Int.cast_ne_zero.mpr hW
  have hrate : ((now - s.lastRefill : ℤ) : ℚ) / 1000
      * ((cfg.maxRequests : ℚ) / ((cfg.windowMs : ℚ) / 1000))
      = ((now - s.lastRefill : ℤ) : ℚ)
      * ((cfg.maxRequests : ℚ) / (cfg.windowMs : ℚ)) := by
    field_simp
    ring
  show (⟨min (cfg.maxRequests : ℚ)
      (s.tokens + ((now - s.lastRefill : ℤ) : ℚ) / 1000
        * ((cfg.maxRequests : ℚ) / ((cfg.windowMs : ℚ) / 1000))), now⟩
      : TokenBucketState) = _
  rw [hrate]

/-- Refilling at the very same instant leaves a within-capacity token count
unchanged. -/
lemma refill_same_instant (cfg : RateLimiterConfig) (s : TokenBucketState)
    (h : s.tokens ≤ (cfg.maxRequests : ℚ)) :
    refillTokens cfg s.lastRefill s = s := by
  unfold refillTokens
  simp only [sub_self, Int.cast_zero, zero_div, zero_mul, add_zero]
  rw [min_eq_right h]

/-- Consuming `k` times in one instant from a bucket holding
`maxRequests − m` tokens admits every attempt and ends with
`maxRequests − (m + k)` tokens. -/
lemma run_consume_instant (cfg : RateLimiterConfig) (hC : 0 < cfg.maxRequests)
    (t : ℤ) :
    ∀ (k m : ℕ), (m : ℤ) + (k : ℤ) ≤ cfg.maxRequests →
      run cfg (List.replicate k t) ⟨(cfg.maxRequests : ℚ) - (m : ℚ), t⟩
          = List.replicate k t
        ∧ runState cfg (List.replicate k t)
            ⟨(cfg.maxRequests : ℚ) - (m : ℚ), t⟩
          = ⟨(cfg.maxRequests : ℚ) - ((m : ℚ) + (k : ℚ)), t⟩ := by
  intro k
  induction k with
  | zero =>
    intro m _
    refine ⟨rfl, ?_⟩
    simp [runState]
  | succ k ih =>
    intro m h
    have hm1 : ((m : ℤ) + 1) ≤ cfg.maxRequests := by push_cast at h; omega
    have hm1Q : (m : ℚ) + 1 ≤ (cfg.maxRequests : ℚ) := by
      exact_mod_cast hm1
    have hrefill : refillTokens cfg t ⟨(cfg.maxRequests : ℚ) - (m : ℚ), t⟩
        = ⟨(cfg.maxRequests : ℚ) - (m : ℚ), t⟩ := by
      have := refill_same_instant cfg ⟨(cfg.maxRequests : ℚ) - (m : ℚ), t⟩
        (by
          show (cfg.maxRequests : ℚ) - (m : ℚ) ≤ (cfg.maxRequests : ℚ)
          have : (0 : ℚ) ≤ (m : ℚ) := Nat.cast_nonneg m
          linarith)
      simpa using this
    have htok : (1 : ℚ) ≤ (cfg.maxRequests : ℚ) - (m : ℚ) := by linarith
    have hcan : canMakeRequest cfg t ⟨(cfg.maxRequests : ℚ) - (m : ℚ), t⟩
        = (true, ⟨(cfg.maxRequests : ℚ) - (m : ℚ), t⟩) := by
      unfold canMakeRequest
      rw [hrefill]
      simp [htok]
    have hcons : consumeRequest cfg t ⟨(cfg.maxRequests : ℚ) - (m : ℚ), t⟩
        = ⟨(cfg.maxRequests : ℚ) - ((m : ℚ) + 1), t⟩ := by
      unfold consumeRequest
      rw [hrefill]
      simp only [htok, if_true]
      have hmax : max (0 : ℚ) ((cfg.maxRequests : ℚ) - (m : ℚ) - 1)
          = (cfg.maxRequests : ℚ) - ((m : ℚ) + 1) := by
        rw [max_eq_right (by linarith)]
        ring
      rw [hmax]
    have ihk := ih (m + 1) (by push_cast at h ⊢; omega)
    have hcast : ((m + 1 : ℕ) : ℚ) = (m : ℚ) + 1 := by push_cast; ring
    constructor
    · rw [List.replicate_succ]
      show run cfg (t :: List.replicate k t) _ = _
      rw [run, hcan]
      simp only [if_true]
      rw [hcons, ← hcast, ihk.1, ← List.replicate_succ]
    · rw [List.replicate_succ]
      show runState cfg (t :: List.replicate k t) _ = _
      rw [runState, hcan]
      simp only [if_true]
      rw [hcons, ← hcast, ihk.2]
      have : ((m + 1 : ℕ) : ℚ) + (k : ℚ) = (m : ℚ) + ((k : ℕ) + 1 : ℕ) := by
        push_cast; ring
      rw [this]

/-- An empty bucket denies the next attempt at the same instant. -/
lemma deny_when_empty (cfg : RateLimiterConfig) (hC : 0 ≤ cfg.maxRequests)
    (t : ℤ) :
    canMakeRequest cfg t ⟨0, t⟩ = (false, ⟨0, t⟩) := by
  have hrefill : refillTokens cfg t ⟨(0 : ℚ), t⟩ = ⟨(0 : ℚ), t⟩ := by
    have := refill_same_instant cfg ⟨(0 : ℚ), t⟩
      (by
        show (0 : ℚ) ≤ (cfg.maxRequests : ℚ)
        exact_mod_cast hC)
    simpa using this
  unfold canMakeRequest
  rw [hrefill]
  norm_num

/-- After exactly `windowMs` of idleness, an empty bucket refills to full
capacity (exactly, over `ℚ`). -/
lemma refill_full_after_window (cfg : RateLimiterConfig)
    (hC : 0 ≤ cfg.maxRequests) (hW : cfg.windowMs ≠ 0) (t : ℤ) :
    refillTokens cfg (t + cfg.windowMs) ⟨0, t⟩
      = ⟨(cfg.maxRequests : ℚ), t + cfg.windowMs⟩ := by
  rw [refill_formula cfg hW]
  have hWQ : ((cfg.windowMs : ℤ) : ℚ) ≠ 0 := Int.cast_ne_zero.mpr hW
  congr 1
  show min (cfg.maxRequests : ℚ)
      ((0 : ℚ) + ((t + cfg.windowMs - t : ℤ) : ℚ)
        * ((cfg.maxRequests : ℚ) / (cfg.windowMs : ℚ)))
    = (cfg.maxRequests : ℚ)
  have : ((t + cfg.windowMs - t : ℤ) : ℚ) = (cfg.windowMs : ℚ) := by
    push_cast; ring
  rw [this]
  rw [zero_add, ← mul_div_assoc, mul_div_cancel_left₀ _ hWQ, min_self]

end TokenBucket

/-! ## Unfolding lemmas for the orchestrator and token bucket

Definitional restatements (by structure eta) that expose the pair
plumbing without `let`/`match` binders, so concrete states can be
computed by rewriting. -/

namespace TokenBucket

lemma getWaitTime_eq (cfg : RateLimiterConfig) (now : ℤ) (s : TokenBucketState) :
    getWaitTime cfg now s
      = (if (1:ℚ) ≤ (refillTokens cfg now s).tokens then 0
         else ⌈((1:ℚ) - (refillTokens cfg now s).tokens)
            / refillRate cfg * 1000⌉,
         refillTokens cfg now s) := rfl

lemma getNextRefillTime_eq (cfg : RateLimiterConfig) (now : ℤ) (s : TokenBucketState) :
    getNextRefillTime cfg now s
      = if (cfg.maxRequests : ℚ) ≤ s.tokens then (now + cfg.windowMs, s)
        else (now + (getWaitTime cfg now s).1, (getWaitTime cfg now s).2) := rfl

lemma getState_unfold_token (cfg : RateLimiterConfig) (now : ℤ) (s : TokenBucketState) :
    getState cfg now s
      = (⟨⌊(refillTokens cfg now s).tokens⌋,
          (getNextRefillTime cfg now (refillTokens cfg now s)).1,
          decide ((refillTokens cfg now s).tokens < 1),
          (if (refillTokens cfg now s).tokens < 1
           then getWaitTime cfg now
             (getNextRefillTime cfg now (refillTokens cfg now s)).2
           else (0, (getNextRefillTime cfg now
             (refillTokens cfg now s)).2)).1,
          cfg.maxRequests - ⌊(refillTokens cfg now s).tokens⌋⟩,
        (if (refillTokens cfg now s).tokens < 1
         then getWaitTime cfg now
           (getNextRefillTime cfg now (refillTokens cfg now s)).2
         else (0, (getNextRefillTime cfg now
           (refillTokens cfg now s)).2)).2) := rfl

end TokenBucket

namespace RateLimiter

lemma makeRequest_eq (cfg : RateLimiterConfig) (now : ℤ) (st : StratState)
    (success : Bool) :
    makeRequest cfg now st success
      = if (canMakeRequest cfg now st).1 then
          (if success then
            (.completed true
              (consumeRequest cfg now (canMakeRequest cfg now st).2).1,
             if cfg.skipSuccessfulRequests then
               refundRequest (consumeRequest cfg now
                 (canMakeRequest cfg now st).2).2
             else (consumeRequest cfg now (canMakeRequest cfg now st).2).2)
          else
            (.completed false
              (consumeRequest cfg now (canMakeRequest cfg now st).2).1,
             if cfg.skipFailedRequests then
               refundRequest (consumeRequest cfg now
                 (canMakeRequest cfg now st).2).2
             else (consumeRequest cfg now (canMakeRequest cfg now st).2).2))
        else
          (.limited (getWaitTime cfg now (canMakeRequest cfg now st).2).1,
           (getWaitTime cfg now (canMakeRequest cfg now st).2).2) := rfl

lemma consumeRequest_eq (cfg : RateLimiterConfig) (now : ℤ) (st : StratState) :
    consumeRequest cfg now st
      = ((getState cfg now (consumeStrategy cfg now st)).1.remaining,
         (getState cfg now (consumeStrategy cfg now st)).2) := rfl

lemma getState_tokenBucket (cfg : RateLimiterConfig) (now : ℤ)
    (s : TokenBucketState) :
    getState cfg now (.tokenBucket s)
      = ((TokenBucket.getState cfg now s).1,
         .tokenBucket (TokenBucket.getState cfg now s).2) := rfl

/-- One admitted, successful `makeRequest` with `skipSuccessfulRequests`
set: the result is the consumed snapshot's `remaining` and the state is
passed through `refundRequest`. -/
lemma makeRequest_admit_success_refund (cfg : RateLimiterConfig) (now : ℤ)
    (st st₁ : StratState) (h : canMakeRequest cfg now st = (true, st₁))
    (hskip : cfg.skipSuccessfulRequests = true) :
    makeRequest cfg now st true
      = (.completed true (consumeRequest cfg now st₁).1,
         refundRequest (consumeRequest cfg now st₁).2) := by
  rw [makeRequest_eq, h, hskip]
  simp

end RateLimiter

/-! ## Concrete evaluation of a token-bucket guarded call
(capacity 2, window 1000 ms, `skipSuccessfulRequests`, call at `t = 0`). -/

namespace TB2

lemma refill_full : TokenBucket.refillTokens
    ⟨2, 1000, "token-bucket", true, false⟩ 0 ⟨2, 0⟩ = ⟨2, 0⟩ := by
  have := TokenBucket.refill_same_instant
    ⟨2, 1000, "token-bucket", true, false⟩ ⟨2, 0⟩
    (by show (2:ℚ) ≤ ((2:ℤ):ℚ); norm_num)
  simpa using this

lemma refill_one : TokenBucket.refillTokens
    ⟨2, 1000, "token-bucket", true, false⟩ 0 ⟨1, 0⟩ = ⟨1, 0⟩ := by
  have := TokenBucket.refill_same_instant
    ⟨2, 1000, "token-bucket", true, false⟩ ⟨1, 0⟩
    (by show (1:ℚ) ≤ ((2:ℤ):ℚ); norm_num)
  simpa using this

lemma can : RateLimiter.canMakeRequest ⟨2, 1000, "token-bucket", true, false⟩
    0 (.tokenBucket ⟨2, 0⟩) = (true, .tokenBucket ⟨2, 0⟩) := by
  show (let s' := TokenBucket.refillTokens
          ⟨2, 1000, "token-bucket", true, false⟩ 0 ⟨2, 0⟩
        ((decide ((1 : ℚ) ≤ s'.tokens), StratState.tokenBucket s')
          : Bool × StratState))
      = (true, .tokenBucket ⟨2, 0⟩)
  rw [refill_full]
  norm_num

lemma consume : RateLimiter.consumeStrategy
    ⟨2, 1000, "token-bucket", true, false⟩ 0 (.tokenBucket ⟨2, 0⟩)
    = .tokenBucket ⟨1, 0⟩ := by
  show StratState.tokenBucket
      (TokenBucket.consumeRequest ⟨2, 1000, "token-bucket", true, false⟩
        0 ⟨2, 0⟩) = _
  unfold TokenBucket.consumeRequest
  rw [refill_full]
  rw [if_pos (by show (1:ℚ) ≤ (2:ℚ); norm_num)]
  norm_num

lemma waitTime : TokenBucket.getWaitTime
    ⟨2, 1000, "token-bucket", true, false⟩ 0 ⟨1, 0⟩ = (0, ⟨1, 0⟩) := by
  rw [TokenBucket.getWaitTime_eq, refill_one]
  rw [if_pos (by show (1:ℚ) ≤ (1:ℚ); norm_num)]

lemma nextRefill : TokenBucket.getNextRefillTime
    ⟨2, 1000, "token-bucket", true, false⟩ 0 ⟨1, 0⟩ = (0, ⟨1, 0⟩) := by
  rw [TokenBucket.getNextRefillTime_eq]
  rw [if_neg (by show ¬ (((2:ℤ):ℚ) ≤ (1:ℚ)); norm_num)]
  rw [waitTime]
  rfl

lemma snapshot : TokenBucket.getState
    ⟨2, 1000, "token-bucket", true, false⟩ 0 ⟨1, 0⟩
    = (⟨1, 0, false, 0, 1⟩, ⟨1, 0⟩) := by
  rw [TokenBucket.getState_unfold_token, refill_one, nextRefill]
  rw [if_neg (by
    show ¬ ((⟨1, 0⟩ : TokenBucketState).tokens < 1)
    show ¬ ((1:ℚ) < 1)
    norm_num)]
  have hfloor : ⌊(⟨1, 0⟩ : TokenBucketState).tokens⌋ = 1 := by
    show ⌊(1:ℚ)⌋ = 1
    norm_num
  rw [hfloor]
  have hdec : decide ((⟨1, 0⟩ : TokenBucketState).tokens < 1) = false := by
    have h : ¬ ((1:ℚ) < 1) := by norm_num
    exact decide_eq_false h
  rw [hdec]
  rfl

lemma guard : RateLimiter.makeRequest ⟨2, 1000, "token-bucket", true, false⟩
    0 (.tokenBucket ⟨2, 0⟩) true = (.completed true 1, .tokenBucket ⟨1, 0⟩) := by
  rw [RateLimiter.makeRequest_admit_success_refund _ _ _ _ can rfl,
    RateLimiter.consumeRequest_eq, consume,
    RateLimiter.getState_tokenBucket, snapshot]
  rfl

lemma create : RateLimiter.createStrategy
    ⟨2, 1000, "token-bucket", true, false⟩ 0 = .tokenBucket ⟨2, 0⟩ := by
  show StratState.tokenBucket
      (TokenBucket.init ⟨2, 1000, "token-bucket", true, false⟩ 0) = _
  unfold TokenBucket.init
  norm_num

end TB2

/-! ## Registry helper lemmas -/

namespace PerUserRateLimiter

lemma canMakeRequest_eq (cfg : PerUserConfig) (key : String) (now : ℤ)
    (st : PerUserState) :
    canMakeRequest cfg key now st
      = ((RateLimiter.canMakeRequest cfg.base now
            (getLimiter cfg key now st).1).1,
         putStrat key (RateLimiter.canMakeRequest cfg.base now
            (getLimiter cfg key now st).1).2
           (getLimiter cfg key now st).2) := rfl

lemma getState_user_eq (cfg : PerUserConfig) (key : String) (now : ℤ)
    (st : PerUserState) :
    getState cfg key now st
      = ((RateLimiter.getState cfg.base now (getLimiter cfg key now st).1).1,
         putStrat key (RateLimiter.getState cfg.base now
            (getLimiter cfg key now st).1).2
           (getLimiter cfg key now st).2) := rfl

lemma getLimiter_empty (cfg : PerUserConfig) (key : String) (now : ℤ)
    (tmr : Bool) :
    getLimiter cfg key now ⟨[], tmr⟩
      = (RateLimiter.createStrategy cfg.base now,
         ⟨[(key, ⟨RateLimiter.createStrategy cfg.base now, now⟩)], tmr⟩) := by
  unfold getLimiter lookup setEntry
  simp

lemma putStrat_single (key : String) (strat s₀ : StratState) (lu : ℤ)
    (tmr : Bool) :
    putStrat key strat ⟨[(key, ⟨s₀, lu⟩)], tmr⟩
      = ⟨[(key, ⟨strat, lu⟩)], tmr⟩ := by
  unfold putStrat lookup setEntry
  simp

end PerUserRateLimiter

/-! ## Registry lookup lemmas for the frame-effect claim -/

namespace PerUserRateLimiter

lemma lookup_eq_none_iff (key : String) (l : List (String × UserEntry)) :
    lookup key l = none ↔ ∀ p ∈ l, ¬ (p.1 = key) := by
  unfold lookup
  rw [Option.map_eq_none', List.find?_eq_none]
  simp

lemma lookup_append_none (key : String) (l₁ l₂ : List (String × UserEntry))
    (h : lookup key l₁ = none) :
    lookup key (l₁ ++ l₂) = lookup key l₂ := by
  rw [lookup_eq_none_iff] at h
  induction l₁ with
  | nil => rfl
  | cons x xs ih =>
    have hx : ¬ (x.1 = key) := h x (List.mem_cons_self x xs)
    unfold lookup
    rw [List.cons_append, List.find?_cons, decide_eq_false hx]
    exact ih (fun p hp => h p (List.mem_cons_of_mem x hp))

lemma lookup_single_self (key : String) (e : UserEntry) :
    lookup key [(key, e)] = some e := by
  unfold lookup
  rw [List.find?_cons, decide_eq_true (rfl : (key, e).1 = key)]
  rfl

lemma lookup_filter_none (key : String) (p : String × UserEntry → Bool)
    (l : List (String × UserEntry)) (h : lookup key l = none) :
    lookup key (l.filter p) = none := by
  rw [lookup_eq_none_iff] at h ⊢
  intro q hq
  exact h q (List.mem_of_mem_filter hq)

lemma setEntry_append_missing (key : String) (e' e : UserEntry)
    (l : List (String × UserEntry)) (h : lookup key l = none) :
    setEntry key e' (l ++ [(key, e)]) = l ++ [(key, e')] := by
  rw [lookup_eq_none_iff] at h
  induction l with
  | nil =>
    show setEntry key e' ((key, e) :: []) = (key, e') :: []
    simp only [setEntry]
    rw [if_pos trivial]
  | cons x xs ih =>
    have hx : ¬ (x.1 = key) := h x (List.mem_cons_self x xs)
    show setEntry key e' (x :: (xs ++ [(key, e)])) = x :: (xs ++ [(key, e')])
    simp only [setEntry]
    rw [if_neg hx]
    rw [ih (fun p hp => h p (List.mem_cons_of_mem x hp))]

/-- `getLimiter` on a registry that has no entry for `key`: a fresh
limiter is created from the shared config, appended, and stamped with
`lastUsed = now`. -/
lemma getLimiter_missing (cfg : PerUserConfig) (key : String) (now : ℤ)
    (st : PerUserState) (h : lookup key st.limiters = none) :
    getLimiter cfg key now st
      = (RateLimiter.createStrategy cfg.base now,
         ⟨st.limiters
            ++ [(key, ⟨RateLimiter.createStrategy cfg.base now, now⟩)],
          st.timerActive⟩) := by
  have hlook : lookup key (st.limiters
      ++ [(key, ⟨RateLimiter.createStrategy cfg.base now, now⟩)])
      = some ⟨RateLimiter.createStrategy cfg.base now, now⟩ := by
    rw [lookup_append_none key _ _ h, lookup_single_self]
  simp only [getLimiter, h, Option.isSome_none, Bool.false_eq_true,
    if_false, hlook]
  rw [setEntry_append_missing key _ _ _ h]

/-- Writing back the mutated strategy state after a read keeps the entry
and its `lastUsed = now` stamp. -/
lemma putStrat_append_missing (key : String) (strat : StratState)
    (l : List (String × UserEntry)) (e : UserEntry) (tmr : Bool)
    (h : lookup key l = none) :
    putStrat key strat ⟨l ++ [(key, e)], tmr⟩
      = ⟨l ++ [(key, ⟨strat, e.lastUsed⟩)], tmr⟩ := by
  have hlook : lookup key (l ++ [(key, e)]) = some e := by
    rw [lookup_append_none key _ _ h, lookup_single_self]
  simp only [putStrat, hlook]
  rw [setEntry_append_missing key _ _ _ h]

/-- The registry state after `canMakeRequest` for a missing key. -/
lemma canMakeRequest_post_missing (cfg : PerUserConfig) (key : String)
    (now : ℤ) (st : PerUserState) (h : lookup key st.limiters = none) :
    (canMakeRequest cfg key now st).2
      = ⟨st.limiters ++ [(key,
          ⟨(RateLimiter.canMakeRequest cfg.base now
              (RateLimiter.createStrategy cfg.base now)).2, now⟩)],
         st.timerActive⟩ := by
  rw [canMakeRequest_eq, getLimiter_missing cfg key now st h]
  exact putStrat_append_missing key _ _ _ _ h

/-- The registry state after `getState` for a missing key. -/
lemma getState_post_missing (cfg : PerUserConfig) (key : String)
    (now : ℤ) (st : PerUserState) (h : lookup key st.limiters = none) :
    (getState cfg key now st).2
      = ⟨st.limiters ++ [(key,
          ⟨(RateLimiter.getState cfg.base now
              (RateLimiter.createStrategy cfg.base now)).2, now⟩)],
         st.timerActive⟩ := by
  rw [getState_user_eq, getLimiter_missing cfg key now st h]
  exact putStrat_append_missing key _ _ _ _ h

end PerUserRateLimiter

/-- A freshly constructed strategy (any algorithm name) admits its first
request, provided the capacity is at least 1. -/
lemma fresh_strategy_admits (cfg : RateLimiterConfig) (now : ℤ)
    (hC : 1 ≤ cfg.maxRequests) :
    (RateLimiter.canMakeRequest cfg now
      (RateLimiter.createStrategy cfg now)).1 = true := by
  unfold RateLimiter.createStrategy
  split
  · show ((FixedWindow.canMakeRequest cfg now (FixedWindow.init now)).1,
        StratState.fixed (FixedWindow.canMakeRequest cfg now
          (FixedWindow.init now)).2).1 = true
    unfold FixedWindow.canMakeRequest FixedWindow.checkWindowReset
      FixedWindow.init
    by_cases h : (⟨0, now⟩ : FixedWindowState).windowStart + cfg.windowMs ≤ now
    · simp only [if_pos h]
      exact decide_eq_true (by omega)
    · simp only [if_neg h]
      exact decide_eq_true (by omega)
  · show decide ((1:ℚ) ≤ (TokenBucket.refillTokens cfg now
        (TokenBucket.init cfg now)).tokens) = true
    have hrf : TokenBucket.refillTokens cfg now (TokenBucket.init cfg now)
        = TokenBucket.init cfg now :=
      TokenBucket.refill_same_instant cfg (TokenBucket.init cfg now)
        (le_refl _)
    rw [hrf]
    exact decide_eq_true (by
      show (1:ℚ) ≤ ((cfg.maxRequests : ℤ) : ℚ)
      exact_mod_cast hC)
  · show ((SlidingWindow.canMakeRequest cfg now ⟨[]⟩).1,
        StratState.sliding (SlidingWindow.canMakeRequest cfg now ⟨[]⟩).2).1
        = true
    unfold SlidingWindow.canMakeRequest SlidingWindow.cleanupOldRequests
    exact decide_eq_true (by simp; omega)

/-! ## Claim theorems -/

/-- C1: the spec claims that `makeRequest` refunds one unit of consumed
capacity when the skip flags apply (token bucket: tokens incremented,
capped; fixed window: count decremented, floored), restoring the
pre-consumption state.  The code's `refundRequest` has an empty body, so
no refund happens: at the failing inputs below, the post-call state keeps
the consumption (1 token left out of 2; count 1 instead of 0). -/
theorem C1_refund_is_never_performed :
    RateLimiter.makeRequest ⟨2, 1000, "token-bucket", true, false⟩ 0
        (RateLimiter.createStrategy ⟨2, 1000, "token-bucket", true, false⟩ 0)
        true
      = (.completed true 1, .tokenBucket ⟨1, 0⟩)
    ∧ (StratState.tokenBucket ⟨1, 0⟩ ≠ .tokenBucket ⟨2, 0⟩)
    ∧ RateLimiter.refundRequest (.tokenBucket ⟨1, 0⟩) = .tokenBucket ⟨1, 0⟩
    ∧ RateLimiter.makeRequest ⟨2, 1000, "fixed-window", false, true⟩ 0
        (RateLimiter.createStrategy ⟨2, 1000, "fixed-window", false, true⟩ 0)
        false
      = (.completed false 1, .fixed ⟨1, 0⟩)
    ∧ (StratState.fixed ⟨1, 0⟩ ≠ .fixed ⟨0, 0⟩) := by
  refine ⟨?_, ?_, rfl, by decide, by decide⟩
  · rw [TB2.create]
    exact TB2.guard
  · intro h
    rw [StratState.tokenBucket.injEq, TokenBucketState.mk.injEq] at h
    exact absurd h.1 (by norm_num)

/-- C2 counterexample: the constructor performs no validation at all.
With capacity 0, a negative window, and the unknown algorithm name
`"leaky-bucket"`, construction succeeds and silently yields the default
sliding-window strategy; the limiter then operates normally (here: the
guard is denied with a `RateLimitError` carrying wait time 0, not a
`ConfigurationError` — no such error exists in the code). -/
theorem C2_counterexample_unknown_algorithm_defaults :
    RateLimiter.createStrategy ⟨0, -5, "leaky-bucket", false, false⟩ 7
      = .sliding ⟨[]⟩
    ∧ RateLimiter.makeRequest ⟨0, -5, "leaky-bucket", false, false⟩ 7
        (RateLimiter.createStrategy ⟨0, -5, "leaky-bucket", false, false⟩ 7)
        true
      = (.limited 0, .sliding ⟨[]⟩) := by
  exact ⟨by decide, by decide⟩

/-- C2 (amended): constructing a `RateLimiter` never fails: `maxRequests`
and `windowMs` are not validated (any values are accepted), and an
algorithm name other than `"fixed-window"` and `"token-bucket"` — unknown
names included — is silently mapped to the default sliding-window
strategy. -/
theorem C2_amended_construction_never_validates (cfg : RateLimiterConfig)
    (now : ℤ) (h1 : cfg.strategy ≠ "fixed-window")
    (h2 : cfg.strategy ≠ "token-bucket") :
    RateLimiter.createStrategy cfg now = .sliding ⟨[]⟩ := by
  unfold RateLimiter.createStrategy
  split
  · next heq => exact absurd heq h1
  · next heq => exact absurd heq h2
  · rfl

/-- C2 witness: the amended theorem applied at a concrete invalid
configuration. -/
theorem C2_amended_witness :
    RateLimiter.createStrategy ⟨0, -5, "leaky-bucket", false, false⟩ 7
      = .sliding ⟨[]⟩ :=
  C2_amended_construction_never_validates
    ⟨0, -5, "leaky-bucket", false, false⟩ 7 (by decide) (by decide)

/-- C3 counterexample: after `destroy()` the registry is not unusable.
A subsequent `canMakeRequest` for any key lazily recreates a fresh entry
and admits work (returns `true`), instead of failing. -/
theorem C3_counterexample_destroy_then_admit :
    PerUserRateLimiter.canMakeRequest
        ⟨⟨2, 1000, "sliding-window", false, false⟩, 60000, 3600000⟩
        "alice" 5
        (PerUserRateLimiter.destroy
          (PerUserRateLimiter.init
            ⟨⟨2, 1000, "sliding-window", false, false⟩, 60000, 3600000⟩))
      = (true, ⟨[("alice", ⟨.sliding ⟨[]⟩, 5⟩)], false⟩) := by
  decide

/-- One admitted `makeRequest` completes the wrapped operation: its result
is `completed` with the operation's own outcome, never `limited`. -/
lemma makeRequest_fst_admitted (cfg : RateLimiterConfig) (now : ℤ)
    (st : StratState) (success : Bool)
    (h : (RateLimiter.canMakeRequest cfg now st).1 = true) :
    (RateLimiter.makeRequest cfg now st success).1
      = .completed success
          (RateLimiter.consumeRequest cfg now
            (RateLimiter.canMakeRequest cfg now st).2).1 := by
  rw [RateLimiter.makeRequest_eq, if_pos h]
  cases success <;> rfl

lemma makeRequest_user_eq (cfg : PerUserConfig) (key : String) (now : ℤ)
    (st : PerUserState) (success : Bool) :
    PerUserRateLimiter.makeRequest cfg key now st success
      = ((RateLimiter.makeRequest cfg.base now
            (PerUserRateLimiter.getLimiter cfg key now st).1 success).1,
         PerUserRateLimiter.putStrat key (RateLimiter.makeRequest cfg.base
            now (PerUserRateLimiter.getLimiter cfg key now st).1 success).2
           (PerUserRateLimiter.getLimiter cfg key now st).2) := rfl

/-- C3 (amended): `destroy()` stops the sweep timer and drops all entries,
but the registry remains usable: any subsequent operation — `makeRequest`,
`canMakeRequest`, `getState` — lazily recreates a fresh entry for its key
and admits work as if the key were new (`canMakeRequest` returns `true`,
`makeRequest` runs the wrapped operation and completes with its outcome,
`getState` returns the snapshot of a freshly constructed limiter; each
leaves the registry with exactly the one recreated entry, stamped with
the access time). -/
theorem C3_amended_destroy_drops_but_registry_stays_usable
    (cfg : PerUserConfig) (key : String) (now : ℤ) (st : PerUserState)
    (success : Bool) (hC : 1 ≤ cfg.base.maxRequests) :
    (PerUserRateLimiter.destroy st).limiters = []
    ∧ (PerUserRateLimiter.destroy st).timerActive = false
    ∧ (PerUserRateLimiter.canMakeRequest cfg key now
        (PerUserRateLimiter.destroy st)).1 = true
    ∧ PerUserRateLimiter.getActiveUserCount
        ((PerUserRateLimiter.canMakeRequest cfg key now
          (PerUserRateLimiter.destroy st)).2) = 1
    ∧ (∃ r : ℤ, (PerUserRateLimiter.makeRequest cfg key now
        (PerUserRateLimiter.destroy st) success).1
        = .completed success r)
    ∧ PerUserRateLimiter.getActiveUserCount
        ((PerUserRateLimiter.makeRequest cfg key now
          (PerUserRateLimiter.destroy st) success).2) = 1
    ∧ (∃ e : UserEntry, PerUserRateLimiter.lookup key
        ((PerUserRateLimiter.makeRequest cfg key now
          (PerUserRateLimiter.destroy st) success).2).limiters = some e
        ∧ e.lastUsed = now)
    ∧ (PerUserRateLimiter.getState cfg key now
        (PerUserRateLimiter.destroy st)).1
      = (RateLimiter.getState cfg.base now
          (RateLimiter.createStrategy cfg.base now)).1
    ∧ PerUserRateLimiter.getActiveUserCount
        ((PerUserRateLimiter.getState cfg key now
          (PerUserRateLimiter.destroy st)).2) = 1
    ∧ (∃ e : UserEntry, PerUserRateLimiter.lookup key
        ((PerUserRateLimiter.getState cfg key now
          (PerUserRateLimiter.destroy st)).2).limiters = some e
        ∧ e.lastUsed = now) := by
  refine ⟨rfl, rfl, ?_, ?_, ?_, ?_, ?_, ?_, ?_, ?_⟩
  · show (PerUserRateLimiter.canMakeRequest cfg key now ⟨[], false⟩).1 = true
    rw [PerUserRateLimiter.canMakeRequest_eq,
      PerUserRateLimiter.getLimiter_empty]
    exact fresh_strategy_admits cfg.base now hC
  · show PerUserRateLimiter.getActiveUserCount
        ((PerUserRateLimiter.canMakeRequest cfg key now ⟨[], false⟩).2) = 1
    rw [PerUserRateLimiter.canMakeRequest_eq,
      PerUserRateLimiter.getLimiter_empty]
    show PerUserRateLimiter.getActiveUserCount
        (PerUserRateLimiter.putStrat key _ ⟨[(key, ⟨_, now⟩)], false⟩) = 1
    rw [PerUserRateLimiter.putStrat_single]
    rfl
  · refine ⟨(RateLimiter.consumeRequest cfg.base now
      (RateLimiter.canMakeRequest cfg.base now
        (RateLimiter.createStrategy cfg.base now)).2).1, ?_⟩
    show (PerUserRateLimiter.makeRequest cfg key now ⟨[], false⟩ success).1
      = _
    rw [makeRequest_user_eq, PerUserRateLimiter.getLimiter_empty]
    exact makeRequest_fst_admitted cfg.base now _ success
      (fresh_strategy_admits cfg.base now hC)
  · show PerUserRateLimiter.getActiveUserCount
        ((PerUserRateLimiter.makeRequest cfg key now ⟨[], false⟩
          success).2) = 1
    rw [makeRequest_user_eq, PerUserRateLimiter.getLimiter_empty]
    show PerUserRateLimiter.getActiveUserCount
        (PerUserRateLimiter.putStrat key _ ⟨[(key, ⟨_, now⟩)], false⟩) = 1
    rw [PerUserRateLimiter.putStrat_single]
    rfl
  · refine ⟨⟨(RateLimiter.makeRequest cfg.base now
      (RateLimiter.createStrategy cfg.base now) success).2, now⟩, ?_, rfl⟩
    show PerUserRateLimiter.lookup key
        ((PerUserRateLimiter.makeRequest cfg key now ⟨[], false⟩
          success).2).limiters = _
    rw [makeRequest_user_eq, PerUserRateLimiter.getLimiter_empty]
    show PerUserRateLimiter.lookup key
        ((PerUserRateLimiter.putStrat key _
          ⟨[(key, ⟨_, now⟩)], false⟩)).limiters = _
    rw [PerUserRateLimiter.putStrat_single]
    exact PerUserRateLimiter.lookup_single_self key _
  · show (PerUserRateLimiter.getState cfg key now ⟨[], false⟩).1 = _
    rw [PerUserRateLimiter.getState_user_eq,
      PerUserRateLimiter.getLimiter_empty]
  · show PerUserRateLimiter.getActiveUserCount
        ((PerUserRateLimiter.getState cfg key now ⟨[], false⟩).2) = 1
    rw [PerUserRateLimiter.getState_user_eq,
      PerUserRateLimiter.getLimiter_empty]
    show PerUserRateLimiter.getActiveUserCount
        (PerUserRateLimiter.putStrat key _ ⟨[(key, ⟨_, now⟩)], false⟩) = 1
    rw [PerUserRateLimiter.putStrat_single]
    rfl
  · refine ⟨⟨(RateLimiter.getState cfg.base now
      (RateLimiter.createStrategy cfg.base now)).2, now⟩, ?_, rfl⟩
    show PerUserRateLimiter.lookup key
        ((PerUserRateLimiter.getState cfg key now ⟨[], false⟩).2).limiters
      = _
    rw [PerUserRateLimiter.getState_user_eq,
      PerUserRateLimiter.getLimiter_empty]
    show PerUserRateLimiter.lookup key
        ((PerUserRateLimiter.putStrat key _
          ⟨[(key, ⟨_, now⟩)], false⟩)).limiters = _
    rw [PerUserRateLimiter.putStrat_single]
    exact PerUserRateLimiter.lookup_single_self key _

/-- C3 witness: the amended theorem applied at a concrete registry, with a
successful wrapped operation. -/
theorem C3_amended_witness :
    (PerUserRateLimiter.destroy
        (PerUserRateLimiter.init
          ⟨⟨2, 1000, "sliding-window", false, false⟩, 60000, 3600000⟩)).limiters
      = []
    ∧ (PerUserRateLimiter.destroy
        (PerUserRateLimiter.init
          ⟨⟨2, 1000, "sliding-window", false, false⟩, 60000, 3600000⟩)).timerActive
      = false
    ∧ (PerUserRateLimiter.canMakeRequest
        ⟨⟨2, 1000, "sliding-window", false, false⟩, 60000, 3600000⟩ "bob" 5
        (PerUserRateLimiter.destroy
          (PerUserRateLimiter.init
            ⟨⟨2, 1000, "sliding-window", false, false⟩, 60000, 3600000⟩))).1
      = true
    ∧ PerUserRateLimiter.getActiveUserCount
        ((PerUserRateLimiter.canMakeRequest
          ⟨⟨2, 1000, "sliding-window", false, false⟩, 60000, 3600000⟩ "bob" 5
          (PerUserRateLimiter.destroy
            (PerUserRateLimiter.init
              ⟨⟨2, 1000, "sliding-window", false, false⟩, 60000, 3600000⟩))).2)
      = 1
    ∧ (∃ r : ℤ, (PerUserRateLimiter.makeRequest
        ⟨⟨2, 1000, "sliding-window", false, false⟩, 60000, 3600000⟩ "bob" 5
        (PerUserRateLimiter.destroy
          (PerUserRateLimiter.init
            ⟨⟨2, 1000, "sliding-window", false, false⟩, 60000, 3600000⟩))
        true).1
        = .completed true r)
    ∧ PerUserRateLimiter.getActiveUserCount
        ((PerUserRateLimiter.makeRequest
          ⟨⟨2, 1000, "sliding-window", false, false⟩, 60000, 3600000⟩ "bob" 5
          (PerUserRateLimiter.destroy
            (PerUserRateLimiter.init
              ⟨⟨2, 1000, "sliding-window", false, false⟩, 60000, 3600000⟩))
          true).2) = 1
    ∧ (∃ e : UserEntry, PerUserRateLimiter.lookup "bob"
        ((PerUserRateLimiter.makeRequest
          ⟨⟨2, 1000, "sliding-window", false, false⟩, 60000, 3600000⟩ "bob" 5
          (PerUserRateLimiter.destroy
            (PerUserRateLimiter.init
              ⟨⟨2, 1000, "sliding-window", false, false⟩, 60000, 3600000⟩))
          true).2).limiters = some e
        ∧ e.lastUsed = 5)
    ∧ (PerUserRateLimiter.getState
        ⟨⟨2, 1000, "sliding-window", false, false⟩, 60000, 3600000⟩ "bob" 5
        (PerUserRateLimiter.destroy
          (PerUserRateLimiter.init
            ⟨⟨2, 1000, "sliding-window", false, false⟩, 60000, 3600000⟩))).1
      = (RateLimiter.getState ⟨2, 1000, "sliding-window", false, false⟩ 5
          (RateLimiter.createStrategy
            ⟨2, 1000, "sliding-window", false, false⟩ 5)).1
    ∧ PerUserRateLimiter.getActiveUserCount
        ((PerUserRateLimiter.getState
          ⟨⟨2, 1000, "sliding-window", false, false⟩, 60000, 3600000⟩ "bob" 5
          (PerUserRateLimiter.destroy
            (PerUserRateLimiter.init
              ⟨⟨2, 1000, "sliding-window", false, false⟩, 60000, 3600000⟩))).2)
      = 1
    ∧ (∃ e : UserEntry, PerUserRateLimiter.lookup "bob"
        ((PerUserRateLimiter.getState
          ⟨⟨2, 1000, "sliding-window", false, false⟩, 60000, 3600000⟩ "bob" 5
          (PerUserRateLimiter.destroy
            (PerUserRateLimiter.init
              ⟨⟨2, 1000, "sliding-window", false, false⟩, 60000, 3600000⟩))).2).limiters
        = some e
        ∧ e.lastUsed = 5) :=
  C3_amended_destroy_drops_but_registry_stays_usable
    ⟨⟨2, 1000, "sliding-window", false, false⟩, 60000, 3600000⟩ "bob" 5
    (PerUserRateLimiter.init
      ⟨⟨2, 1000, "sliding-window", false, false⟩, 60000, 3600000⟩)
    true (by decide)

/-- C5: the concrete sliding-window scenario (capacity 3, window 1000 ms).
Guarded calls at t = 0, 100, 200 succeed with remaining 2, 1, 0; the call
at t = 300 fails with `RateLimitError` and retryAfter 700 = 1000 − 300;
the call at t = 1001 succeeds again (the t = 0 admission expired) with
remaining 0. -/
theorem C5_sliding_window_scenario :
    RateLimiter.makeRequest ⟨3, 1000, "sliding-window", false, false⟩ 0
        (RateLimiter.createStrategy ⟨3, 1000, "sliding-window", false, false⟩ 0)
        true
      = (.completed true 2, .sliding ⟨[0]⟩)
    ∧ RateLimiter.makeRequest ⟨3, 1000, "sliding-window", false, false⟩ 100
        (.sliding ⟨[0]⟩) true
      = (.completed true 1, .sliding ⟨[0, 100]⟩)
    ∧ RateLimiter.makeRequest ⟨3, 1000, "sliding-window", false, false⟩ 200
        (.sliding ⟨[0, 100]⟩) true
      = (.completed true 0, .sliding ⟨[0, 100, 200]⟩)
    ∧ RateLimiter.makeRequest ⟨3, 1000, "sliding-window", false, false⟩ 300
        (.sliding ⟨[0, 100, 200]⟩) true
      = (.limited 700, .sliding ⟨[0, 100, 200]⟩)
    ∧ RateLimiter.makeRequest ⟨3, 1000, "sliding-window", false, false⟩ 1001
        (.sliding ⟨[0, 100, 200]⟩) true
      = (.completed true 0, .sliding ⟨[100, 200, 1001]⟩) := by
  refine ⟨by decide, by decide, by decide, by decide, by decide⟩

/-- C4: over any trace of sliding-window admission attempts at
non-decreasing times (as produced by `Date.now()`), at most `maxRequests`
admissions fall in any half-open interval `[a, a + windowMs)`; moreover,
after `maxRequests` admissions at `t = 0`, one extra attempt at
`windowMs − ε` (for `0 < ε < windowMs`) is denied while the same attempt
at `windowMs + ε` is admitted. -/
theorem C4_sliding_window_no_overrun (cfg : RateLimiterConfig)
    (hC : 0 < cfg.maxRequests) (hW : 0 < cfg.windowMs)
    (ts : List ℤ) (hts : List.Sorted (· ≤ ·) ts) (a ε : ℤ)
    (hε0 : 0 < ε) (hεW : ε < cfg.windowMs) :
    (((SlidingWindow.run cfg ts ⟨[]⟩).filter (fun u => decide (a ≤ u) &&
        decide (u < a + cfg.windowMs))).length : ℤ) ≤ cfg.maxRequests
    ∧ SlidingWindow.run cfg
        (List.replicate cfg.maxRequests.toNat 0 ++ [cfg.windowMs - ε]) ⟨[]⟩
      = List.replicate cfg.maxRequests.toNat 0
    ∧ SlidingWindow.run cfg
        (List.replicate cfg.maxRequests.toNat 0 ++ [cfg.windowMs + ε]) ⟨[]⟩
      = List.replicate cfg.maxRequests.toNat 0 ++ [cfg.windowMs + ε] :=
  ⟨SlidingWindow.run_bound cfg (le_of_lt hC) ts hts a,
   SlidingWindow.deny_before_window cfg hC hW ε hε0 hεW,
   SlidingWindow.admit_after_window cfg hC hW ε hε0⟩

/-- C4 witness: the interval bound and both boundary behaviours at a
concrete capacity-2, window-10 configuration. -/
theorem C4_witness :
    (((SlidingWindow.run ⟨2, 10, "sliding-window", false, false⟩
          [0, 1, 5] ⟨[]⟩).filter (fun u => decide ((0:ℤ) ≤ u) &&
        decide (u < 0 + (10:ℤ)))).length : ℤ) ≤ 2
    ∧ SlidingWindow.run ⟨2, 10, "sliding-window", false, false⟩
        (List.replicate 2 0 ++ [10 - 3]) ⟨[]⟩ = List.replicate 2 0
    ∧ SlidingWindow.run ⟨2, 10, "sliding-window", false, false⟩
        (List.replicate 2 0 ++ [10 + 3]) ⟨[]⟩
      = List.replicate 2 0 ++ [10 + 3] :=
  C4_sliding_window_no_overrun ⟨2, 10, "sliding-window", false, false⟩
    (by decide) (by decide) [0, 1, 5] (by decide) 0 3 (by decide) (by decide)

/-- C6: the fixed-window strategy resets non-carryingly on every call
(`now ≥ windowStart + windowMs` sets `windowStart := now`, `count := 0`,
otherwise the state is untouched), admits iff `count < maxRequests`, and
consequently `maxRequests` admissions just before a window boundary plus
`maxRequests` more just after it all succeed — `2 × maxRequests`
admissions in an arbitrarily short interval. -/
theorem C6_fixed_window_reset_and_burst (cfg : RateLimiterConfig)
    (hC : 0 < cfg.maxRequests) (hW : 0 < cfg.windowMs) :
    (∀ (now : ℤ) (s : FixedWindowState),
        s.windowStart + cfg.windowMs ≤ now →
        FixedWindow.checkWindowReset cfg now s = ⟨0, now⟩)
    ∧ (∀ (now : ℤ) (s : FixedWindowState),
        ¬ (s.windowStart + cfg.windowMs ≤ now) →
        FixedWindow.checkWindowReset cfg now s = s)
    ∧ (∀ (now : ℤ) (s : FixedWindowState),
        ((FixedWindow.canMakeRequest cfg now s).1 = true
          ↔ (FixedWindow.checkWindowReset cfg now s).requestCount
              < cfg.maxRequests))
    ∧ (∀ t₀ t₁ t₂ : ℤ, t₀ ≤ t₁ → t₁ < t₀ + cfg.windowMs →
        t₀ + cfg.windowMs ≤ t₂ →
        FixedWindow.run cfg (List.replicate cfg.maxRequests.toNat t₁
            ++ List.replicate cfg.maxRequests.toNat t₂) (FixedWindow.init t₀)
          = List.replicate cfg.maxRequests.toNat t₁
            ++ List.replicate cfg.maxRequests.toNat t₂
        ∧ (List.replicate cfg.maxRequests.toNat t₁
            ++ List.replicate cfg.maxRequests.toNat t₂).length
          = 2 * cfg.maxRequests.toNat) := by
  refine ⟨?_, ?_, ?_, ?_⟩
  · intro now s h
    unfold FixedWindow.checkWindowReset
    rw [if_pos h]
  · intro now s h
    unfold FixedWindow.checkWindowReset
    rw [if_neg h]
  · intro now s
    show decide ((FixedWindow.checkWindowReset cfg now s).requestCount
        < cfg.maxRequests) = true ↔ _
    rw [decide_eq_true_eq]
  · intro t₀ t₁ t₂ h₀₁ h₁ h₂
    refine ⟨(FixedWindow.run_burst cfg hC hW t₀ t₁ t₂ h₀₁ h₁ h₂).1, ?_⟩
    rw [List.length_append, List.length_replicate, List.length_replicate]
    omega

/-- C6 witness: the reset behaviour and the boundary burst at a concrete
capacity-2, window-10 configuration (bursts at t = 9 and t = 10 from a
window started at t = 0). -/
theorem C6_witness :
    FixedWindow.run ⟨2, 10, "fixed-window", false, false⟩
        (List.replicate 2 9 ++ List.replicate 2 10) (FixedWindow.init 0)
      = List.replicate 2 9 ++ List.replicate 2 10
    ∧ (List.replicate 2 (9:ℤ) ++ List.replicate 2 (10:ℤ)).length = 2 * 2 :=
  (C6_fixed_window_reset_and_burst ⟨2, 10, "fixed-window", false, false⟩
    (by decide) (by decide)).2.2.2 0 9 10 (by decide) (by decide) (by decide)

/-- C7: every token-bucket call refills first —
`tokens := min maxRequests (tokens + (now − lastRefill) ·
(maxRequests / windowMs))` with `lastRefill := now` — and admits iff the
refilled tokens are ≥ 1; starting from a full bucket, `maxRequests`
consumes at one instant admit every attempt and leave 0 tokens, the next
attempt at that instant is denied, and after exactly `windowMs` of
idleness the bucket is back at full capacity (exactly, over `ℚ`). -/
theorem C7_token_bucket_refill_exhaust_recover (cfg : RateLimiterConfig)
    (hC : 0 < cfg.maxRequests) (hW : 0 < cfg.windowMs) :
    (∀ (now : ℤ) (s : TokenBucketState),
        TokenBucket.refillTokens cfg now s
          = ⟨min (cfg.maxRequests : ℚ)
              (s.tokens + ((now - s.lastRefill : ℤ) : ℚ)
                * ((cfg.maxRequests : ℚ) / (cfg.windowMs : ℚ))), now⟩)
    ∧ (∀ (now : ℤ) (s : TokenBucketState),
        ((TokenBucket.canMakeRequest cfg now s).1 = true
          ↔ (1:ℚ) ≤ (TokenBucket.refillTokens cfg now s).tokens))
    ∧ (∀ t : ℤ,
        TokenBucket.run cfg (List.replicate cfg.maxRequests.toNat t)
            (TokenBucket.init cfg t)
          = List.replicate cfg.maxRequests.toNat t
        ∧ TokenBucket.runState cfg (List.replicate cfg.maxRequests.toNat t)
            (TokenBucket.init cfg t)
          = ⟨0, t⟩
        ∧ (TokenBucket.canMakeRequest cfg t ⟨0, t⟩).1 = false)
    ∧ (∀ t : ℤ, TokenBucket.refillTokens cfg (t + cfg.windowMs) ⟨0, t⟩
        = ⟨(cfg.maxRequests : ℚ), t + cfg.windowMs⟩) := by
  have hcast : ((cfg.maxRequests.toNat : ℤ)) = cfg.maxRequests :=
    Int.toNat_of_nonneg (le_of_lt hC)
  refine ⟨?_, ?_, ?_, ?_⟩
  · intro now s
    exact TokenBucket.refill_formula cfg (ne_of_gt hW) now s
  · intro now s
    show decide ((1:ℚ) ≤ (TokenBucket.refillTokens cfg now s).tokens)
        = true ↔ _
    rw [decide_eq_true_eq]
  · intro t
    have hinit : (TokenBucket.init cfg t)
        = ⟨(cfg.maxRequests : ℚ) - ((0 : ℕ) : ℚ), t⟩ := by
      unfold TokenBucket.init
      norm_num
    have hmain := TokenBucket.run_consume_instant cfg hC t
      cfg.maxRequests.toNat 0 (by omega)
    have hfin : ((cfg.maxRequests : ℚ) - (((0 : ℕ) : ℚ)
        + ((cfg.maxRequests.toNat : ℕ) : ℚ))) = 0 := by
      have h2 : ((cfg.maxRequests.toNat : ℕ) : ℚ)
          = ((cfg.maxRequests : ℤ) : ℚ) := by
        exact_mod_cast congrArg (fun z : ℤ => (z : ℚ)) hcast
      rw [h2]
      norm_num
    refine ⟨?_, ?_, ?_⟩
    · rw [hinit]
      exact hmain.1
    · rw [hinit, hmain.2, hfin]
    · have hd := TokenBucket.deny_when_empty cfg (le_of_lt hC) t
      rw [hd]
  · intro t
    exact TokenBucket.refill_full_after_window cfg (le_of_lt hC)
      (ne_of_gt hW) t

/-- C7 witness: exhaustion and exact recovery at a concrete capacity-2,
window-1000 configuration, consuming at t = 5. -/
theorem C7_witness :
    TokenBucket.run ⟨2, 1000, "token-bucket", false, false⟩
        (List.replicate 2 5)
        (TokenBucket.init ⟨2, 1000, "token-bucket", false, false⟩ 5)
      = List.replicate 2 5
    ∧ TokenBucket.runState ⟨2, 1000, "token-bucket", false, false⟩
        (List.replicate 2 5)
        (TokenBucket.init ⟨2, 1000, "token-bucket", false, false⟩ 5)
      = ⟨0, 5⟩
    ∧ (TokenBucket.canMakeRequest ⟨2, 1000, "token-bucket", false, false⟩
        5 ⟨0, 5⟩).1 = false :=
  (C7_token_bucket_refill_exhaust_recover
    ⟨2, 1000, "token-bucket", false, false⟩ (by decide) (by decide)).2.2.1 5

/-! ## Idempotence lemmas for `getState` (held clock) -/

namespace SlidingWindow

lemma cleanup_idem (cfg : RateLimiterConfig) (now : ℤ)
    (s : SlidingWindowState) :
    cleanupOldRequests cfg now (cleanupOldRequests cfg now s)
      = cleanupOldRequests cfg now s := by
  unfold cleanupOldRequests
  simp [List.filter_filter]

lemma getState_unfold_sliding (cfg : RateLimiterConfig) (now : ℤ)
    (s : SlidingWindowState) :
    getState cfg now s
      = (⟨max 0 (cfg.maxRequests - ((cleanupOldRequests cfg now
            s).requestTimestamps.length : ℤ)),
          getNextResetTime cfg now (cleanupOldRequests cfg now s),
          decide (max 0 (cfg.maxRequests - ((cleanupOldRequests cfg now
            s).requestTimestamps.length : ℤ)) = 0),
          if max 0 (cfg.maxRequests - ((cleanupOldRequests cfg now
              s).requestTimestamps.length : ℤ)) = 0
          then getWaitTime cfg now (cleanupOldRequests cfg now s) else 0,
          ((cleanupOldRequests cfg now s).requestTimestamps.length : ℤ)⟩,
        cleanupOldRequests cfg now s) := rfl

lemma getState_cleanup (cfg : RateLimiterConfig) (now : ℤ)
    (s : SlidingWindowState) :
    getState cfg now (cleanupOldRequests cfg now s) = getState cfg now s := by
  rw [getState_unfold_sliding, getState_unfold_sliding, cleanup_idem]

lemma getState_idem_sliding (cfg : RateLimiterConfig) (now : ℤ)
    (s : SlidingWindowState) :
    getState cfg now ((getState cfg now s).2) = getState cfg now s :=
  getState_cleanup cfg now s

end SlidingWindow

namespace FixedWindow

lemma checkWindowReset_idem (cfg : RateLimiterConfig) (now : ℤ)
    (s : FixedWindowState) :
    checkWindowReset cfg now (checkWindowReset cfg now s)
      = checkWindowReset cfg now s := by
  by_cases h : s.windowStart + cfg.windowMs ≤ now
  · have h1 : checkWindowReset cfg now s = ⟨0, now⟩ := by
      unfold checkWindowReset
      rw [if_pos h]
    rw [h1]
    unfold checkWindowReset
    split <;> rfl
  · have h1 : checkWindowReset cfg now s = s := by
      unfold checkWindowReset
      rw [if_neg h]
    rw [h1, h1]

lemma getState_unfold_fixed (cfg : RateLimiterConfig) (now : ℤ)
    (s : FixedWindowState) :
    getState cfg now s
      = (⟨max 0 (cfg.maxRequests
            - (checkWindowReset cfg now s).requestCount),
          (checkWindowReset cfg now s).windowStart + cfg.windowMs,
          decide (max 0 (cfg.maxRequests
            - (checkWindowReset cfg now s).requestCount) = 0),
          if max 0 (cfg.maxRequests
              - (checkWindowReset cfg now s).requestCount) = 0
          then getWaitTime cfg now (checkWindowReset cfg now s) else 0,
          (checkWindowReset cfg now s).requestCount⟩,
        checkWindowReset cfg now s) := rfl

lemma getState_reset (cfg : RateLimiterConfig) (now : ℤ)
    (s : FixedWindowState) :
    getState cfg now (checkWindowReset cfg now s) = getState cfg now s := by
  rw [getState_unfold_fixed, getState_unfold_fixed, checkWindowReset_idem]

lemma getState_idem_fixed (cfg : RateLimiterConfig) (now : ℤ)
    (s : FixedWindowState) :
    getState cfg now ((getState cfg now s).2) = getState cfg now s :=
  getState_reset cfg now s

end FixedWindow

namespace TokenBucket

/-- Refilling a state already stamped at `now` with tokens under capacity
is a no-op. -/
lemma refill_at_now (cfg : RateLimiterConfig) (now : ℤ)
    (s : TokenBucketState) (h : s.lastRefill = now)
    (htok : s.tokens ≤ (cfg.maxRequests : ℚ)) :
    refillTokens cfg now s = s := by
  cases s with
  | mk tk lr =>
    cases h
    exact refill_same_instant cfg ⟨tk, lr⟩ htok

lemma refill_idem (cfg : RateLimiterConfig) (now : ℤ) (s : TokenBucketState) :
    refillTokens cfg now (refillTokens cfg now s) = refillTokens cfg now s :=
  refill_at_now cfg now _ rfl (min_le_left _ _)

lemma getWaitTime_snd (cfg : RateLimiterConfig) (now : ℤ)
    (s : TokenBucketState) :
    (getWaitTime cfg now s).2 = refillTokens cfg now s := rfl

lemma getNextRefillTime_snd (cfg : RateLimiterConfig) (now : ℤ)
    (s : TokenBucketState) :
    (getNextRefillTime cfg now s).2
      = if (cfg.maxRequests : ℚ) ≤ s.tokens then s
        else refillTokens cfg now s := by
  rw [getNextRefillTime_eq]
  split <;> rfl

lemma getState_snd (cfg : RateLimiterConfig) (now : ℤ)
    (s : TokenBucketState) :
    (getState cfg now s).2 = refillTokens cfg now s := by
  rw [getState_unfold_token]
  have hg : (getNextRefillTime cfg now (refillTokens cfg now s)).2
      = refillTokens cfg now s := by
    rw [getNextRefillTime_snd]
    split
    · rfl
    · exact refill_idem cfg now s
  show (if (refillTokens cfg now s).tokens < 1
      then getWaitTime cfg now
        (getNextRefillTime cfg now (refillTokens cfg now s)).2
      else (0, (getNextRefillTime cfg now (refillTokens cfg now s)).2)).2
    = refillTokens cfg now s
  rw [hg]
  split
  · rw [getWaitTime_snd]
    exact refill_idem cfg now s
  · rfl

lemma getState_refill (cfg : RateLimiterConfig) (now : ℤ)
    (s : TokenBucketState) :
    getState cfg now (refillTokens cfg now s) = getState cfg now s := by
  rw [getState_unfold_token, getState_unfold_token, refill_idem]

lemma getState_idem_token (cfg : RateLimiterConfig) (now : ℤ)
    (s : TokenBucketState) :
    getState cfg now ((getState cfg now s).2) = getState cfg now s := by
  rw [getState_snd]
  exact getState_refill cfg now s

end TokenBucket

namespace RateLimiter

lemma getState_sliding (cfg : RateLimiterConfig) (now : ℤ)
    (s : SlidingWindowState) :
    getState cfg now (.sliding s)
      = ((SlidingWindow.getState cfg now s).1,
         .sliding (SlidingWindow.getState cfg now s).2) := rfl

lemma getState_fixed (cfg : RateLimiterConfig) (now : ℤ)
    (s : FixedWindowState) :
    getState cfg now (.fixed s)
      = ((FixedWindow.getState cfg now s).1,
         .fixed (FixedWindow.getState cfg now s).2) := rfl

end RateLimiter

/-- C9: `getSnapshot` (`getState`) is an idempotent read under a held
clock: for every strategy and every state, calling it a second time on
the state left by the first call returns the identical snapshot and the
identical state — so a `getState` between two operations has no effect on
any later decision taken at the same instant. -/
theorem C9_getSnapshot_idempotent (cfg : RateLimiterConfig) (now : ℤ)
    (st : StratState) :
    RateLimiter.getState cfg now ((RateLimiter.getState cfg now st).2)
      = RateLimiter.getState cfg now st := by
  cases st with
  | sliding s =>
    rw [RateLimiter.getState_sliding, RateLimiter.getState_sliding,
      SlidingWindow.getState_idem_sliding]
  | fixed s =>
    rw [RateLimiter.getState_fixed, RateLimiter.getState_fixed,
      FixedWindow.getState_idem_fixed]
  | tokenBucket s =>
    rw [RateLimiter.getState_tokenBucket, RateLimiter.getState_tokenBucket,
      TokenBucket.getState_idem_token]

/-! ## Bounds lemmas for the `remaining` invariant -/

namespace TokenBucket

/-- With a non-negative capacity, a positive window, non-negative tokens
and a monotone clock, the refilled token count stays within
`[0, maxRequests]`. -/
lemma refill_bounds (cfg : RateLimiterConfig) (now : ℤ)
    (s : TokenBucketState) (hC : 0 ≤ cfg.maxRequests)
    (hW : 0 < cfg.windowMs) (h0 : 0 ≤ s.tokens)
    (hlr : s.lastRefill ≤ now) :
    0 ≤ (refillTokens cfg now s).tokens
      ∧ (refillTokens cfg now s).tokens ≤ (cfg.maxRequests : ℚ) := by
  constructor
  · show (0:ℚ) ≤ min (cfg.maxRequests : ℚ)
      (s.tokens + ((now - s.lastRefill : ℤ) : ℚ) / 1000 * refillRate cfg)
    apply le_min
    · exact_mod_cast hC
    · apply add_nonneg h0
      apply mul_nonneg
      · apply div_nonneg _ (by norm_num)
        exact_mod_cast sub_nonneg.mpr hlr
      · unfold refillRate
        apply div_nonneg
        · exact_mod_cast hC
        · apply div_nonneg _ (by norm_num)
          exact_mod_cast le_of_lt hW
  · exact min_le_left _ _

/-- `consumeRequest` stamps `lastRefill = now`, never increases the
refilled token count, and keeps it non-negative. -/
lemma consume_charac (cfg : RateLimiterConfig) (now : ℤ)
    (s : TokenBucketState) :
    (consumeRequest cfg now s).lastRefill = now
      ∧ (consumeRequest cfg now s).tokens
          ≤ (refillTokens cfg now s).tokens
      ∧ (0 ≤ (refillTokens cfg now s).tokens
          → 0 ≤ (consumeRequest cfg now s).tokens) := by
  unfold consumeRequest
  by_cases h : (1:ℚ) ≤ (refillTokens cfg now s).tokens
  · rw [if_pos h]
    refine ⟨rfl, ?_, ?_⟩
    · show max 0 ((refillTokens cfg now s).tokens - 1)
          ≤ (refillTokens cfg now s).tokens
      apply max_le (by linarith) (by linarith)
    · intro _
      exact le_max_left _ _
  · rw [if_neg h]
    exact ⟨rfl, le_refl _, fun h0 => h0⟩

end TokenBucket

/-- C8: for every strategy, the snapshot satisfies
`remaining = max 0 (maxRequests − totalRequests)` with
`0 ≤ remaining ≤ maxRequests` (on states reachable from construction:
sliding-window states are arbitrary, fixed-window states have a
non-negative count, token-bucket states have `tokens ∈ [0, maxRequests]`
and a `lastRefill` in the past); under a held clock `remaining` never
increases across a `consume` and is unchanged by `canMakeRequest`; and
the reachability invariants are themselves preserved by `consumeRequest`. -/
theorem C8_remaining_invariant (cfg : RateLimiterConfig)
    (hC : 0 ≤ cfg.maxRequests) (hW : 0 < cfg.windowMs) (now : ℤ)
    (ssl : SlidingWindowState)
    (sfx : FixedWindowState) (hfx : 0 ≤ sfx.requestCount)
    (stb : TokenBucketState) (htb0 : 0 ≤ stb.tokens)
    (htb1 : stb.tokens ≤ (cfg.maxRequests : ℚ))
    (htb2 : stb.lastRefill ≤ now) :
    ((SlidingWindow.getState cfg now ssl).1.remaining
        = max 0 (cfg.maxRequests
            - (SlidingWindow.getState cfg now ssl).1.totalRequests)
      ∧ 0 ≤ (SlidingWindow.getState cfg now ssl).1.remaining
      ∧ (SlidingWindow.getState cfg now ssl).1.remaining ≤ cfg.maxRequests
      ∧ (SlidingWindow.getState cfg now
            (SlidingWindow.consumeRequest now ssl)).1.remaining
          ≤ (SlidingWindow.getState cfg now ssl).1.remaining
      ∧ (SlidingWindow.getState cfg now
            ((SlidingWindow.canMakeRequest cfg now ssl).2)).1.remaining
          = (SlidingWindow.getState cfg now ssl).1.remaining)
    ∧ ((FixedWindow.getState cfg now sfx).1.remaining
        = max 0 (cfg.maxRequests
            - (FixedWindow.getState cfg now sfx).1.totalRequests)
      ∧ 0 ≤ (FixedWindow.getState cfg now sfx).1.remaining
      ∧ (FixedWindow.getState cfg now sfx).1.remaining ≤ cfg.maxRequests
      ∧ (FixedWindow.getState cfg now
            (FixedWindow.consumeRequest cfg now sfx)).1.remaining
          ≤ (FixedWindow.getState cfg now sfx).1.remaining
      ∧ (FixedWindow.getState cfg now
            ((FixedWindow.canMakeRequest cfg now sfx).2)).1.remaining
          = (FixedWindow.getState cfg now sfx).1.remaining
      ∧ 0 ≤ (FixedWindow.consumeRequest cfg now sfx).requestCount)
    ∧ ((TokenBucket.getState cfg now stb).1.remaining
        = max 0 (cfg.maxRequests
            - (TokenBucket.getState cfg now stb).1.totalRequests)
      ∧ 0 ≤ (TokenBucket.getState cfg now stb).1.remaining
      ∧ (TokenBucket.getState cfg now stb).1.remaining ≤ cfg.maxRequests
      ∧ (TokenBucket.getState cfg now
            (TokenBucket.consumeRequest cfg now stb)).1.remaining
          ≤ (TokenBucket.getState cfg now stb).1.remaining
      ∧ (TokenBucket.getState cfg now
            ((TokenBucket.canMakeRequest cfg now stb).2)).1.remaining
          = (TokenBucket.getState cfg now stb).1.remaining
      ∧ 0 ≤ (TokenBucket.consumeRequest cfg now stb).tokens
      ∧ (TokenBucket.consumeRequest cfg now stb).tokens
          ≤ (cfg.maxRequests : ℚ)
      ∧ (TokenBucket.consumeRequest cfg now stb).lastRefill = now) := by
  obtain ⟨htbr0, htbr1⟩ :=
    TokenBucket.refill_bounds cfg now stb hC hW htb0 htb2
  obtain ⟨hcl, hcle, hcnn⟩ := TokenBucket.consume_charac cfg now stb
  refine ⟨⟨?_, ?_, ?_, ?_, ?_⟩, ⟨?_, ?_, ?_, ?_, ?_, ?_⟩,
    ⟨?_, ?_, ?_, ?_, ?_, ?_, ?_, ?_⟩⟩
  -- sliding window
  · rfl
  · exact le_max_left _ _
  · apply max_le hC
    have := Int.natCast_nonneg
      ((SlidingWindow.cleanupOldRequests cfg now
        ssl).requestTimestamps.length)
    omega
  · rw [SlidingWindow.getState_unfold_sliding, SlidingWindow.getState_unfold_sliding]
    show max 0 (cfg.maxRequests - _) ≤ max 0 (cfg.maxRequests - _)
    apply max_le_max (le_refl 0)
    have hlen : ((SlidingWindow.cleanupOldRequests cfg now
          ssl).requestTimestamps.length : ℤ)
        ≤ ((SlidingWindow.cleanupOldRequests cfg now
          (SlidingWindow.consumeRequest now
            ssl)).requestTimestamps.length : ℤ) := by
      show ((ssl.requestTimestamps.filter
          (fun t => decide (now - t < cfg.windowMs))).length : ℤ) ≤ _
      show _ ≤ (((ssl.requestTimestamps ++ [now]).filter
          (fun t => decide (now - t < cfg.windowMs))).length : ℤ)
      rw [List.filter_append, List.length_append]
      push_cast
      omega
    omega
  · show (SlidingWindow.getState cfg now
        (SlidingWindow.cleanupOldRequests cfg now ssl)).1.remaining = _
    rw [SlidingWindow.getState_cleanup]
  -- fixed window
  · rfl
  · exact le_max_left _ _
  · apply max_le hC
    have hcnt : 0 ≤ (FixedWindow.checkWindowReset cfg now
        sfx).requestCount := by
      unfold FixedWindow.checkWindowReset
      split
      · exact le_refl 0
      · exact hfx
    omega
  · have hnr : FixedWindow.checkWindowReset cfg now
        (FixedWindow.consumeRequest cfg now sfx)
        = FixedWindow.consumeRequest cfg now sfx := by
      have hws : ¬ ((FixedWindow.consumeRequest cfg now sfx).windowStart
          + cfg.windowMs ≤ now) := by
        show ¬ ((FixedWindow.checkWindowReset cfg now sfx).windowStart
          + cfg.windowMs ≤ now)
        unfold FixedWindow.checkWindowReset
        by_cases h : sfx.windowStart + cfg.windowMs ≤ now
        · rw [if_pos h]
          show ¬ (now + cfg.windowMs ≤ now)
          omega
        · rw [if_neg h]
          exact h
      unfold FixedWindow.checkWindowReset
      rw [if_neg hws]
    rw [FixedWindow.getState_unfold_fixed, FixedWindow.getState_unfold_fixed, hnr]
    show max 0 (cfg.maxRequests
        - (FixedWindow.consumeRequest cfg now sfx).requestCount)
      ≤ max 0 (cfg.maxRequests
        - (FixedWindow.checkWindowReset cfg now sfx).requestCount)
    have : (FixedWindow.consumeRequest cfg now sfx).requestCount
        = (FixedWindow.checkWindowReset cfg now sfx).requestCount + 1 := rfl
    rw [this]
    apply max_le_max (le_refl 0)
    omega
  · show (FixedWindow.getState cfg now
        (FixedWindow.checkWindowReset cfg now sfx)).1.remaining = _
    rw [FixedWindow.getState_reset]
  · show 0 ≤ (FixedWindow.checkWindowReset cfg now sfx).requestCount + 1
    have hcnt : 0 ≤ (FixedWindow.checkWindowReset cfg now
        sfx).requestCount := by
      unfold FixedWindow.checkWindowReset
      split
      · exact le_refl 0
      · exact hfx
    omega
  -- token bucket
  · show ⌊(TokenBucket.refillTokens cfg now stb).tokens⌋
      = max 0 (cfg.maxRequests - (cfg.maxRequests
          - ⌊(TokenBucket.refillTokens cfg now stb).tokens⌋))
    have hf0 : 0 ≤ ⌊(TokenBucket.refillTokens cfg now stb).tokens⌋ :=
      Int.floor_nonneg.mpr htbr0
    omega
  · show (0:ℤ) ≤ ⌊(TokenBucket.refillTokens cfg now stb).tokens⌋
    exact Int.floor_nonneg.mpr htbr0
  · show ⌊(TokenBucket.refillTokens cfg now stb).tokens⌋ ≤ cfg.maxRequests
    calc ⌊(TokenBucket.refillTokens cfg now stb).tokens⌋
        ≤ ⌊((cfg.maxRequests : ℤ) : ℚ)⌋ := Int.floor_le_floor htbr1
      _ = cfg.maxRequests := Int.floor_intCast _
  · show ⌊(TokenBucket.refillTokens cfg now
        (TokenBucket.consumeRequest cfg now stb)).tokens⌋
      ≤ ⌊(TokenBucket.refillTokens cfg now stb).tokens⌋
    have hre : TokenBucket.refillTokens cfg now
        (TokenBucket.consumeRequest cfg now stb)
        = TokenBucket.consumeRequest cfg now stb :=
      TokenBucket.refill_at_now cfg now _ hcl
        (le_trans hcle htbr1)
    rw [hre]
    exact Int.floor_le_floor hcle
  · show (TokenBucket.getState cfg now
        (TokenBucket.refillTokens cfg now stb)).1.remaining = _
    rw [TokenBucket.getState_refill]
  · exact hcnn htbr0
  · exact le_trans hcle htbr1
  · exact hcl

/-- C8 witness: the invariant at a concrete capacity-2 configuration and
concrete states of all three strategies. -/
theorem C8_witness :
    ((SlidingWindow.getState ⟨2, 10, "sliding-window", false, false⟩ 4
        ⟨[0, 1]⟩).1.remaining
        = max 0 (2 - (SlidingWindow.getState
            ⟨2, 10, "sliding-window", false, false⟩ 4
            ⟨[0, 1]⟩).1.totalRequests)
      ∧ 0 ≤ (SlidingWindow.getState ⟨2, 10, "sliding-window", false, false⟩
          4 ⟨[0, 1]⟩).1.remaining
      ∧ (SlidingWindow.getState ⟨2, 10, "sliding-window", false, false⟩ 4
          ⟨[0, 1]⟩).1.remaining ≤ 2
      ∧ (SlidingWindow.getState ⟨2, 10, "sliding-window", false, false⟩ 4
            (SlidingWindow.consumeRequest 4 ⟨[0, 1]⟩)).1.remaining
          ≤ (SlidingWindow.getState ⟨2, 10, "sliding-window", false, false⟩
            4 ⟨[0, 1]⟩).1.remaining
      ∧ (SlidingWindow.getState ⟨2, 10, "sliding-window", false, false⟩ 4
            ((SlidingWindow.canMakeRequest
              ⟨2, 10, "sliding-window", false, false⟩ 4
              ⟨[0, 1]⟩).2)).1.remaining
          = (SlidingWindow.getState ⟨2, 10, "sliding-window", false, false⟩
            4 ⟨[0, 1]⟩).1.remaining)
    ∧ ((FixedWindow.getState ⟨2, 10, "sliding-window", false, false⟩ 4
        ⟨1, 0⟩).1.remaining
        = max 0 (2 - (FixedWindow.getState
            ⟨2, 10, "sliding-window", false, false⟩ 4
            ⟨1, 0⟩).1.totalRequests)
      ∧ 0 ≤ (FixedWindow.getState ⟨2, 10, "sliding-window", false, false⟩
          4 ⟨1, 0⟩).1.remaining
      ∧ (FixedWindow.getState ⟨2, 10, "sliding-window", false, false⟩ 4
          ⟨1, 0⟩).1.remaining ≤ 2
      ∧ (FixedWindow.getState ⟨2, 10, "sliding-window", false, false⟩ 4
            (FixedWindow.consumeRequest
              ⟨2, 10, "sliding-window", false, false⟩ 4
              ⟨1, 0⟩)).1.remaining
          ≤ (FixedWindow.getState ⟨2, 10, "sliding-window", false, false⟩
            4 ⟨1, 0⟩).1.remaining
      ∧ (FixedWindow.getState ⟨2, 10, "sliding-window", false, false⟩ 4
            ((FixedWindow.canMakeRequest
              ⟨2, 10, "sliding-window", false, false⟩ 4
              ⟨1, 0⟩).2)).1.remaining
          = (FixedWindow.getState ⟨2, 10, "sliding-window", false, false⟩
            4 ⟨1, 0⟩).1.remaining
      ∧ 0 ≤ (FixedWindow.consumeRequest
          ⟨2, 10, "sliding-window", false, false⟩ 4 ⟨1, 0⟩).requestCount)
    ∧ ((TokenBucket.getState ⟨2, 10, "sliding-window", false, false⟩ 4
        ⟨1, 4⟩).1.remaining
        = max 0 (2 - (TokenBucket.getState
            ⟨2, 10, "sliding-window", false, false⟩ 4
            ⟨1, 4⟩).1.totalRequests)
      ∧ 0 ≤ (TokenBucket.getState ⟨2, 10, "sliding-window", false, false⟩
          4 ⟨1, 4⟩).1.remaining
      ∧ (TokenBucket.getState ⟨2, 10, "sliding-window", false, false⟩ 4
          ⟨1, 4⟩).1.remaining ≤ 2
      ∧ (TokenBucket.getState ⟨2, 10, "sliding-window", false, false⟩ 4
            (TokenBucket.consumeRequest
              ⟨2, 10, "sliding-window", false, false⟩ 4
              ⟨1, 4⟩)).1.remaining
          ≤ (TokenBucket.getState ⟨2, 10, "sliding-window", false, false⟩
            4 ⟨1, 4⟩).1.remaining
      ∧ (TokenBucket.getState ⟨2, 10, "sliding-window", false, false⟩ 4
            ((TokenBucket.canMakeRequest
              ⟨2, 10, "sliding-window", false, false⟩ 4
              ⟨1, 4⟩).2)).1.remaining
          = (TokenBucket.getState ⟨2, 10, "sliding-window", false, false⟩
            4 ⟨1, 4⟩).1.remaining
      ∧ 0 ≤ (TokenBucket.consumeRequest
          ⟨2, 10, "sliding-window", false, false⟩ 4 ⟨1, 4⟩).tokens
      ∧ (TokenBucket.consumeRequest ⟨2, 10, "sliding-window", false, false⟩
          4 ⟨1, 4⟩).tokens ≤ ((2:ℤ) : ℚ)
      ∧ (TokenBucket.consumeRequest ⟨2, 10, "sliding-window", false, false⟩
          4 ⟨1, 4⟩).lastRefill = 4) :=
  C8_remaining_invariant ⟨2, 10, "sliding-window", false, false⟩
    (by decide) (by decide) 4 ⟨[0, 1]⟩ ⟨1, 0⟩ (by decide) ⟨1, 4⟩
    (by norm_num) (by norm_num) (by decide)

/-! ## Existing-entry lemmas for the frame-effect claim -/

namespace PerUserRateLimiter

lemma lookup_cons_ne (key : String) (x : String × UserEntry)
    (xs : List (String × UserEntry)) (hx : ¬ (x.1 = key)) :
    lookup key (x :: xs) = lookup key xs := by
  unfold lookup
  rw [List.find?_cons, decide_eq_false hx]

lemma lookup_cons_eq (key : String) (x : String × UserEntry)
    (xs : List (String × UserEntry)) (hx : x.1 = key) :
    lookup key (x :: xs) = some x.2 := by
  unfold lookup
  rw [List.find?_cons, decide_eq_true hx]
  rfl

lemma setEntry_length (key : String) (e' : UserEntry) :
    ∀ l : List (String × UserEntry), (setEntry key e' l).length = l.length := by
  intro l
  induction l with
  | nil => rfl
  | cons x xs ih =>
    simp only [setEntry]
    by_cases hx : x.1 = key
    · rw [if_pos hx]
      rw [List.length_cons, List.length_cons]
    · rw [if_neg hx]
      show (x :: setEntry key e' xs).length = (x :: xs).length
      rw [List.length_cons, List.length_cons, ih]

lemma lookup_setEntry_self (key : String) (e' : UserEntry) :
    ∀ l : List (String × UserEntry), (lookup key l).isSome = true →
      lookup key (setEntry key e' l) = some e' := by
  intro l
  induction l with
  | nil => intro h; exact absurd h (by simp [lookup])
  | cons x xs ih =>
    intro h
    simp only [setEntry]
    by_cases hx : x.1 = key
    · rw [if_pos hx]
      exact lookup_cons_eq key (key, e') xs rfl
    · rw [if_neg hx, lookup_cons_ne key x _ hx]
      apply ih
      rw [lookup_cons_ne key x xs hx] at h
      exact h

lemma lookup_filter_found (key : String) (p : String × UserEntry → Bool)
    (e : UserEntry) :
    ∀ l : List (String × UserEntry), lookup key l = some e →
      p (key, e) = true → lookup key (l.filter p) = some e := by
  intro l
  induction l with
  | nil => intro h _; exact absurd h (by simp [lookup])
  | cons x xs ih =>
    intro h hp
    by_cases hx : x.1 = key
    · rw [lookup_cons_eq key x xs hx] at h
      have hx2 : x.2 = e := by injection h
      have hxe : x = (key, e) := by
        cases x with
        | mk a b =>
          cases hx
          cases hx2
          rfl
      rw [List.filter_cons, hxe, if_pos hp]
      exact lookup_cons_eq key (key, e) _ rfl
    · rw [lookup_cons_ne key x xs hx] at h
      rw [List.filter_cons]
      by_cases hpx : p x = true
      · rw [if_pos hpx, lookup_cons_ne key x _ hx]
        exact ih h hp
      · rw [if_neg hpx]
        exact ih h hp

/-- `getLimiter` on a registry that already has an entry for `key`: the
entry's limiter is returned and its `lastUsed` is stamped to `now`. -/
lemma getLimiter_found (cfg : PerUserConfig) (key : String) (now : ℤ)
    (st : PerUserState) (e : UserEntry)
    (h : lookup key st.limiters = some e) :
    getLimiter cfg key now st
      = (e.strat,
         ⟨setEntry key ⟨e.strat, now⟩ st.limiters, st.timerActive⟩) := by
  simp only [getLimiter, h, Option.isSome_some, if_true]

lemma putStrat_found (key : String) (strat : StratState)
    (l : List (String × UserEntry)) (e : UserEntry) (tmr : Bool)
    (h : lookup key l = some e) :
    putStrat key strat ⟨l, tmr⟩
      = ⟨setEntry key ⟨strat, e.lastUsed⟩ l, tmr⟩ := by
  simp only [putStrat, h]

/-- The registry state after `canMakeRequest` for an existing key: the
entry is kept (its strategy state updated) and restamped with
`lastUsed = now`. -/
lemma canMakeRequest_post_found (cfg : PerUserConfig) (key : String)
    (now : ℤ) (st : PerUserState) (e : UserEntry)
    (h : lookup key st.limiters = some e) :
    ((canMakeRequest cfg key now st).2).limiters
      = setEntry key
          ⟨(RateLimiter.canMakeRequest cfg.base now e.strat).2, now⟩
          (setEntry key ⟨e.strat, now⟩ st.limiters)
    ∧ ((canMakeRequest cfg key now st).2).timerActive = st.timerActive := by
  rw [canMakeRequest_eq, getLimiter_found cfg key now st e h]
  rw [putStrat_found key _ _ ⟨e.strat, now⟩ st.timerActive
    (lookup_setEntry_self key _ st.limiters (by rw [h]; rfl))]
  exact ⟨rfl, rfl⟩

/-- The registry state after `getState` for an existing key. -/
lemma getState_post_found (cfg : PerUserConfig) (key : String)
    (now : ℤ) (st : PerUserState) (e : UserEntry)
    (h : lookup key st.limiters = some e) :
    ((getState cfg key now st).2).limiters
      = setEntry key
          ⟨(RateLimiter.getState cfg.base now e.strat).2, now⟩
          (setEntry key ⟨e.strat, now⟩ st.limiters)
    ∧ ((getState cfg key now st).2).timerActive = st.timerActive := by
  rw [getState_user_eq, getLimiter_found cfg key now st e h]
  rw [putStrat_found key _ _ ⟨e.strat, now⟩ st.timerActive
    (lookup_setEntry_self key _ st.limiters (by rw [h]; rfl))]
  exact ⟨rfl, rfl⟩

end PerUserRateLimiter

/-- C10: the registry's query operations are not read-only.  For a key
with no entry, both `canMakeRequest(key)` and `getState(key)` create a
fresh limiter entry stamped `lastUsed = now` and grow the registry by
one; for a key that already has an entry, both operations restamp that
entry's `lastUsed` to `now` (keeping the registry's size); and because
the stamp is refreshed in all cases, a later sweep at any time `t` with
`t − now ≤ maxInactiveTime` still finds the key — merely polling a key's
snapshot keeps it alive. -/
theorem C10_registry_reads_create_and_touch (cfg : PerUserConfig)
    (key : String) (now t : ℤ) (st : PerUserState)
    (hnone : PerUserRateLimiter.lookup key st.limiters = none)
    (hidle : t - now ≤ cfg.maxInactiveTime) :
    (∃ e : UserEntry, PerUserRateLimiter.lookup key
        ((PerUserRateLimiter.canMakeRequest cfg key now st).2).limiters
          = some e ∧ e.lastUsed = now)
    ∧ PerUserRateLimiter.getActiveUserCount
        ((PerUserRateLimiter.canMakeRequest cfg key now st).2)
      = PerUserRateLimiter.getActiveUserCount st + 1
    ∧ (∃ e : UserEntry, PerUserRateLimiter.lookup key
        ((PerUserRateLimiter.getState cfg key now st).2).limiters
          = some e ∧ e.lastUsed = now)
    ∧ PerUserRateLimiter.getActiveUserCount
        ((PerUserRateLimiter.getState cfg key now st).2)
      = PerUserRateLimiter.getActiveUserCount st + 1
    ∧ (PerUserRateLimiter.lookup key
        (PerUserRateLimiter.cleanup cfg t
          ((PerUserRateLimiter.canMakeRequest cfg key now
            st).2)).limiters).isSome = true
    ∧ (∀ (st₂ : PerUserState) (e : UserEntry),
        PerUserRateLimiter.lookup key st₂.limiters = some e →
        (∃ e' : UserEntry, PerUserRateLimiter.lookup key
            ((PerUserRateLimiter.canMakeRequest cfg key now
              st₂).2).limiters = some e' ∧ e'.lastUsed = now)
        ∧ (∃ e' : UserEntry, PerUserRateLimiter.lookup key
            ((PerUserRateLimiter.getState cfg key now
              st₂).2).limiters = some e' ∧ e'.lastUsed = now)
        ∧ PerUserRateLimiter.getActiveUserCount
            ((PerUserRateLimiter.canMakeRequest cfg key now st₂).2)
          = PerUserRateLimiter.getActiveUserCount st₂
        ∧ (PerUserRateLimiter.lookup key
            (PerUserRateLimiter.cleanup cfg t
              ((PerUserRateLimiter.canMakeRequest cfg key now
                st₂).2)).limiters).isSome = true) := by
  rw [PerUserRateLimiter.canMakeRequest_post_missing cfg key now st hnone,
    PerUserRateLimiter.getState_post_missing cfg key now st hnone]
  refine ⟨?_, ?_, ?_, ?_, ?_, ?_⟩
  · exact ⟨_, by
      rw [PerUserRateLimiter.lookup_append_none key _ _ hnone,
        PerUserRateLimiter.lookup_single_self], rfl⟩
  · show (st.limiters ++ [_]).length = st.limiters.length + 1
    rw [List.length_append]
    rfl
  · exact ⟨_, by
      rw [PerUserRateLimiter.lookup_append_none key _ _ hnone,
        PerUserRateLimiter.lookup_single_self], rfl⟩
  · show (st.limiters ++ [_]).length = st.limiters.length + 1
    rw [List.length_append]
    rfl
  · unfold PerUserRateLimiter.cleanup
    show (PerUserRateLimiter.lookup key
      ((st.limiters ++ [(key,
        (⟨(RateLimiter.canMakeRequest cfg.base now
            (RateLimiter.createStrategy cfg.base now)).2, now⟩
          : UserEntry))]).filter
        (fun p => ¬ (cfg.maxInactiveTime < t - p.2.lastUsed)))).isSome
      = true
    rw [List.filter_append]
    rw [PerUserRateLimiter.lookup_append_none key _ _
      (PerUserRateLimiter.lookup_filter_none key _ _ hnone)]
    rw [List.filter_cons]
    rw [if_pos (by
      show (decide ¬ (cfg.maxInactiveTime < t - now)) = true
      exact decide_eq_true (by omega))]
    rw [List.filter_nil, PerUserRateLimiter.lookup_single_self]
    rfl
  · intro st₂ e he
    have hsomeInner : PerUserRateLimiter.lookup key
        (PerUserRateLimiter.setEntry key ⟨e.strat, now⟩ st₂.limiters)
        = some ⟨e.strat, now⟩ :=
      PerUserRateLimiter.lookup_setEntry_self key _ st₂.limiters
        (by rw [he]; rfl)
    have hpostA :=
      PerUserRateLimiter.canMakeRequest_post_found cfg key now st₂ e he
    have hpostB :=
      PerUserRateLimiter.getState_post_found cfg key now st₂ e he
    have hfoundA : PerUserRateLimiter.lookup key
        (PerUserRateLimiter.setEntry key
          ⟨(RateLimiter.canMakeRequest cfg.base now e.strat).2, now⟩
          (PerUserRateLimiter.setEntry key ⟨e.strat, now⟩ st₂.limiters))
        = some ⟨(RateLimiter.canMakeRequest cfg.base now e.strat).2, now⟩ :=
      PerUserRateLimiter.lookup_setEntry_self key _ _
        (by rw [hsomeInner]; rfl)
    refine ⟨?_, ?_, ?_, ?_⟩
    · refine ⟨⟨(RateLimiter.canMakeRequest cfg.base now e.strat).2, now⟩,
        ?_, rfl⟩
      rw [hpostA.1]
      exact hfoundA
    · refine ⟨⟨(RateLimiter.getState cfg.base now e.strat).2, now⟩,
        ?_, rfl⟩
      rw [hpostB.1]
      exact PerUserRateLimiter.lookup_setEntry_self key _ _
        (by rw [hsomeInner]; rfl)
    · show ((PerUserRateLimiter.canMakeRequest cfg key now
          st₂).2).limiters.length = st₂.limiters.length
      rw [hpostA.1, PerUserRateLimiter.setEntry_length,
        PerUserRateLimiter.setEntry_length]
    · show (PerUserRateLimiter.lookup key
        (((PerUserRateLimiter.canMakeRequest cfg key now
          st₂).2).limiters.filter
          (fun p => ¬ (cfg.maxInactiveTime < t - p.2.lastUsed)))).isSome
        = true
      rw [hpostA.1]
      rw [PerUserRateLimiter.lookup_filter_found key _ _ _ hfoundA
        (decide_eq_true (by
          show ¬ (cfg.maxInactiveTime < t - now)
          omega))]
      rfl

/-- C10 witness: the frame effect at a concrete registry, polling the
fresh key `"carol"` at t = 5 and sweeping at t = 100. -/
theorem C10_witness :
    (∃ e : UserEntry, PerUserRateLimiter.lookup "carol"
        ((PerUserRateLimiter.canMakeRequest
          ⟨⟨2, 1000, "sliding-window", false, false⟩, 60000, 3600000⟩
          "carol" 5 ⟨[], true⟩).2).limiters
          = some e ∧ e.lastUsed = 5)
    ∧ PerUserRateLimiter.getActiveUserCount
        ((PerUserRateLimiter.canMakeRequest
          ⟨⟨2, 1000, "sliding-window", false, false⟩, 60000, 3600000⟩
          "carol" 5 ⟨[], true⟩).2)
      = PerUserRateLimiter.getActiveUserCount
          (⟨[], true⟩ : PerUserState) + 1
    ∧ (∃ e : UserEntry, PerUserRateLimiter.lookup "carol"
        ((PerUserRateLimiter.getState
          ⟨⟨2, 1000, "sliding-window", false, false⟩, 60000, 3600000⟩
          "carol" 5 ⟨[], true⟩).2).limiters
          = some e ∧ e.lastUsed = 5)
    ∧ PerUserRateLimiter.getActiveUserCount
        ((PerUserRateLimiter.getState
          ⟨⟨2, 1000, "sliding-window", false, false⟩, 60000, 3600000⟩
          "carol" 5 ⟨[], true⟩).2)
      = PerUserRateLimiter.getActiveUserCount
          (⟨[], true⟩ : PerUserState) + 1
    ∧ (PerUserRateLimiter.lookup "carol"
        (PerUserRateLimiter.cleanup
          ⟨⟨2, 1000, "sliding-window", false, false⟩, 60000, 3600000⟩ 100
          ((PerUserRateLimiter.canMakeRequest
            ⟨⟨2, 1000, "sliding-window", false, false⟩, 60000, 3600000⟩
            "carol" 5 ⟨[], true⟩).2)).limiters).isSome = true
    ∧ (∀ (st₂ : PerUserState) (e : UserEntry),
        PerUserRateLimiter.lookup "carol" st₂.limiters = some e →
        (∃ e' : UserEntry, PerUserRateLimiter.lookup "carol"
            ((PerUserRateLimiter.canMakeRequest
              ⟨⟨2, 1000, "sliding-window", false, false⟩, 60000, 3600000⟩
              "carol" 5 st₂).2).limiters = some e' ∧ e'.lastUsed = 5)
        ∧ (∃ e' : UserEntry, PerUserRateLimiter.lookup "carol"
            ((PerUserRateLimiter.getState
              ⟨⟨2, 1000, "sliding-window", false, false⟩, 60000, 3600000⟩
              "carol" 5 st₂).2).limiters = some e' ∧ e'.lastUsed = 5)
        ∧ PerUserRateLimiter.getActiveUserCount
            ((PerUserRateLimiter.canMakeRequest
              ⟨⟨2, 1000, "sliding-window", false, false⟩, 60000, 3600000⟩
              "carol" 5 st₂).2)
          = PerUserRateLimiter.getActiveUserCount st₂
        ∧ (PerUserRateLimiter.lookup "carol"
            (PerUserRateLimiter.cleanup
              ⟨⟨2, 1000, "sliding-window", false, false⟩, 60000, 3600000⟩
              100
              ((PerUserRateLimiter.canMakeRequest
                ⟨⟨2, 1000, "sliding-window", false, false⟩, 60000, 3600000⟩
                "carol" 5 st₂).2)).limiters).isSome = true) :=
  C10_registry_reads_create_and_touch
    ⟨⟨2, 1000, "sliding-window", false, false⟩, 60000, 3600000⟩
    "carol" 5 100 ⟨[], true⟩ rfl (by decide)

end RateLimiterLib
